import Mathlib

/-!
# esp_piano_stairs: the trigger / playback state machine

A shallow embedding of the two sketches of the repository,

* `src/main.cpp` (single-tone / multi-tone / loop variant), namespace `PianoStairs.Main`;
* `src/main_simple.cpp` (single sample `/piano.wav`), namespace `PianoStairs.Simple`.

Conventions of the embedding.

* A C `int` is a Lean `Int`; the result of an `int` addition or subtraction is passed
  through `wrapInt` (32-bit two's complement, the behaviour of the ESP32 target).
* `millis()` and `lastSensorCheck` are `unsigned long` (32 bit): `ulongSub`.
* The globals of a sketch are the fields of its `State`; the configuration globals,
  which the core only reads, are the fields of `Config`.
* The objects behind `file` and `wav` are recorded by what the sketch can observe of
  them: the file name a source was opened on and the `isRunning()` flag of a decoder.
* A division by zero or a read outside `NOTES` ends the step with a `Fault`.
* `State.trace` is a ghost field (newest event first) recording the calls of `playTone`,
  `stopTone`, `wav->stop()` and `wav->begin(file, out)`; no code path reads it.
-/

namespace PianoStairs

deriving instance DecidableEq for Except

/-- Largest value of a 32-bit `int`. -/
def INT_MAX : Int := 2147483647

/-- Smallest value of a 32-bit `int`. -/
def INT_MIN : Int := -2147483648

/-- A value that fits a 32-bit `int`. -/
def isInt (x : Int) : Prop := INT_MIN ≤ x ∧ x ≤ INT_MAX

instance (x : Int) : Decidable (isInt x) := by
  unfold isInt; infer_instance

/-- The 32-bit two's-complement `int` that an `int` operation with exact result `x` yields. -/
def wrapInt (x : Int) : Int := (x + 2147483648) % 4294967296 - 2147483648

/-- The `unsigned long` difference `a - b` (32 bit, modular). -/
def ulongSub (a b : Nat) : Nat := (a % 4294967296 + 4294967296 - b % 4294967296) % 4294967296

/-- The ways a step of `loop()` can fail to complete. -/
inductive Fault where
  | divideByZero
  | indexOutOfRange
  deriving DecidableEq, Repr

/-- Ghost events: `playTone` was entered for a note; `wav->begin(file, out)` was reached
for a source opened on `filename` with the sink pointer `out`; `wav->stop()` was executed on
a running decoder; `stopTone` was entered. -/
inductive Event where
  | playTone (noteToPlay : String)
  | wavBegin (filename : String) (out : Option Nat)
  | wavStop
  | stopTone
  deriving DecidableEq, Repr

/-- What the sketches observe of an `AudioGeneratorWAV` object: its `isRunning()` flag. -/
structure AudioGeneratorWAV where
  running : Bool
  deriving DecidableEq, Repr

/-- The test `wav && wav->isRunning()`. -/
def isRunning (wav : Option AudioGeneratorWAV) : Bool :=
  match wav with
  | some w => w.running
  | none => false

/-- The decoder after `wav->begin(file, out)` on a fresh source opened on `filename`:
it runs exactly when the source could open its file (the file exists). -/
def wavBegin (fsExists : String → Bool) (filename : String) : AudioGeneratorWAV :=
  { running := fsExists filename }

/-- The decoder after one call of `wav->loop()` on a running decoder: `loop()` returns
`isRunning()`, which has become false exactly when the sample ended in this call. -/
def wavLoop (finished : Bool) (w : AudioGeneratorWAV) : AudioGeneratorWAV :=
  { w with running := w.running && !finished }

/-- What one iteration of `loop()` reads from its collaborators: the file store
(`LittleFS.exists`), whether the running decoder reaches the end of its sample in this
iteration's `wav->loop()`, the value of `millis()`, and the sensor reading
(`readRangeContinuousMillimeters()`, a `uint16_t`, and `timeoutOccurred()`). -/
structure Input where
  fsExists : String → Bool
  finished : Bool
  now : Nat
  rawDist : Nat
  timeoutOccurred : Bool

/-- The test `sensor.timeoutOccurred() || rawDist > 8000` on a sensor reading. -/
def erroneous (sample : Bool × Nat) : Prop := sample.1 = true ∨ sample.2 > 8000

instance (sample : Bool × Nat) : Decidable (erroneous sample) := by
  unfold erroneous; infer_instance

/-- The `FilteredDistance` record of the specification (section 3). -/
structure FilteredDistance where
  valueMm : Int
  consecutiveErrors : Int
  deriving DecidableEq, Repr

/-- The distance filter as section 4.1 of the specification words it: on a timed-out or
out-of-range sample the counter is incremented (as the `int` it is) and the value is 9999
if the counter is then above 10 and the previous value otherwise; on a good sample the
counter is reset and the value is the raw reading. The value is the new baseline. -/
def specFilter (timedOut : Bool) (rawMm : Nat) (last : FilteredDistance) : FilteredDistance :=
  if timedOut = true ∨ rawMm > 8000 then
    let n := wrapInt (last.consecutiveErrors + 1)
    if n > 10 then { valueMm := 9999, consecutiveErrors := n }
    else { valueMm := last.valueMm, consecutiveErrors := n }
  else { valueMm := (rawMm : Int), consecutiveErrors := 0 }

/-- The test `millis() - lastSensorCheck > 50`. -/
def sensorDue (now lastSensorCheck : Nat) : Prop := ulongSub now lastSensorCheck > 50

instance (now lastSensorCheck : Nat) : Decidable (sensorDue now lastSensorCheck) := by
  unfold sensorDue; infer_instance

/-- Number of `wav->begin` events in a trace: the playbacks begun. -/
def starts (tr : List Event) : Nat :=
  match tr with
  | [] => 0
  | Event.wavBegin _ _ :: rest => starts rest + 1
  | _ :: rest => starts rest

/-- Number of `stopTone` calls in a trace. -/
def stops (tr : List Event) : Nat :=
  match tr with
  | [] => 0
  | Event.stopTone :: rest => stops rest + 1
  | _ :: rest => stops rest

/-! ## `src/main.cpp` -/

namespace Main

/-- The array `NOTES`. -/
def NOTES : List String := ["C", "D", "E", "F", "G", "A", "H"]

/-- The constant `NUM_NOTES`. -/
def NUM_NOTES : Int := 7

/-- The configuration globals read by the core (`config_volume` only reaches the sink). -/
structure Config where
  config_trigger_mm : Int
  config_hysteresis_mm : Int
  active_note : String
  config_multitone : Bool
  config_note_spacing_mm : Int
  config_loop : Bool
  deriving DecidableEq, Repr

/-- The values the globals are initialised with. -/
def defaultConfig : Config :=
  { config_trigger_mm := 800, config_hysteresis_mm := 100, active_note := "C",
    config_multitone := false, config_note_spacing_mm := 50, config_loop := false }

/-- The state globals of `main.cpp`; `err` is the `static int err` of `loop()`. -/
structure State where
  file : Option String
  wav : Option AudioGeneratorWAV
  out : Option Nat
  isActive : Bool
  hasPlayedOnce : Bool
  lastSensorCheck : Nat
  lastValidDistance : Int
  lastPlayedMultiNote : String
  err : Int
  trace : List Event
  deriving DecidableEq, Repr

/-- The globals after `setup()`: the sink has been created, nothing else has changed. -/
def initState : State :=
  { file := none, wav := none, out := some 0, isActive := false, hasPlayedOnce := false,
    lastSensorCheck := 0, lastValidDistance := 9999, lastPlayedMultiNote := "", err := 0,
    trace := [] }

/-- The file name `"/" + noteToPlay + ".wav"`. -/
def filename (noteToPlay : String) : String := "/" ++ noteToPlay ++ ".wav"

/-- The function `playTone(String noteToPlay)`. -/
def playTone (cfg : Config) (fsExists : String → Bool) (noteToPlay : String) (s : State) :
    State :=
  let s0 := { s with trace := Event.playTone noteToPlay :: s.trace }
  if isRunning s0.wav = true ∧
      ((cfg.active_note = noteToPlay ∧ cfg.config_multitone = false) ∨
        (cfg.config_multitone = true ∧ s0.lastPlayedMultiNote = noteToPlay)) then s0
  else
    let s1 := if cfg.config_multitone = true then
        { s0 with lastPlayedMultiNote := noteToPlay } else s0
    if fsExists (filename noteToPlay) = false then s1
    else
      { s1 with
        file := some (filename noteToPlay)
        wav := some (wavBegin fsExists (filename noteToPlay))
        trace := Event.wavBegin (filename noteToPlay) s1.out :: s1.trace }

/-- The function `stopTone()`. -/
def stopTone (s : State) : State :=
  let s0 := { s with trace := Event.stopTone :: s.trace }
  let s1 := if isRunning s0.wav = true then
      { s0 with trace := Event.wavStop :: s0.trace } else s0
  let s2 := { s1 with wav := none, file := none }
  if s2.isActive = false then { s2 with lastPlayedMultiNote := "" } else s2

/-- The local `restartNote` of the audio engine. -/
def restartNote (cfg : Config) (s : State) : String :=
  if cfg.config_multitone = true then s.lastPlayedMultiNote else cfg.active_note

/-- Part 2 of `loop()`, the audio engine. -/
def audioEngine (cfg : Config) (fsExists : String → Bool) (finished : Bool) (s : State) :
    State :=
  match s.wav with
  | none => s
  | some w =>
    if w.running = true then
      let s1 := { s with wav := some (wavLoop finished w) }
      if isRunning s1.wav = false then
        if cfg.config_loop = true ∧ s1.isActive = true then
          playTone cfg fsExists (restartNote cfg s1) s1
        else
          { stopTone s1 with hasPlayedOnce := true }
      else s1
    else s

/-- The distance filter of part 3 of `loop()`: the filtered `dist` and the updated globals. -/
def readDistance (timeoutOccurred : Bool) (rawDist : Nat) (s : State) : Int × State :=
  if timeoutOccurred = true ∨ rawDist > 8000 then
    let e := wrapInt (s.err + 1)
    if e > 10 then (9999, { s with err := e, lastValidDistance := 9999 })
    else (s.lastValidDistance, { s with err := e })
  else ((rawDist : Int), { s with err := 0, lastValidDistance := (rawDist : Int) })

/-- The value of `noteIndex` after its clamp at `NUM_NOTES - 1` (lines 309 to 312). -/
def noteIndex (cfg : Config) (dist : Int) : Except Fault Int :=
  let diff := wrapInt (cfg.config_trigger_mm - dist)
  let diff := if diff < 0 then 0 else diff
  if cfg.config_note_spacing_mm = 0 then Except.error Fault.divideByZero
  else
    let noteIndex := Int.tdiv diff cfg.config_note_spacing_mm
    Except.ok (if noteIndex ≥ NUM_NOTES then NUM_NOTES - 1 else noteIndex)

/-- The read `NOTES[noteIndex]`. -/
def readNOTES (i : Int) : Except Fault String :=
  if 0 ≤ i ∧ i < NUM_NOTES then Except.ok (NOTES.getD i.toNat "")
  else Except.error Fault.indexOutOfRange

/-- The value of `targetNote` when it is tested against `lastPlayedMultiNote` and passed to
`playTone` (lines 306 to 313). -/
def targetNote (cfg : Config) (dist : Int) : Except Fault String :=
  if cfg.config_multitone = true then
    match noteIndex cfg dist with
    | Except.ok i => readNOTES i
    | Except.error e => Except.error e
  else Except.ok cfg.active_note

/-- The `--- LOGIC ---` block of part 3 of `loop()` for the filtered distance `dist`. -/
def sensorLogic (cfg : Config) (fsExists : String → Bool) (dist : Int) (s : State) :
    Except Fault State :=
  if dist < cfg.config_trigger_mm then
    let s1 := if s.isActive = false then
        { s with isActive := true, hasPlayedOnce := false } else s
    match targetNote cfg dist with
    | Except.error e => Except.error e
    | Except.ok t =>
      let s2 := if cfg.config_multitone = true ∧ t ≠ s1.lastPlayedMultiNote then
          { s1 with hasPlayedOnce := false } else s1
      Except.ok (if s2.hasPlayedOnce = false then playTone cfg fsExists t s2 else s2)
  else if s.isActive = true ∧
      dist > wrapInt (cfg.config_trigger_mm + cfg.config_hysteresis_mm) then
    let s1 := stopTone { s with isActive := false }
    Except.ok { s1 with lastPlayedMultiNote := "", hasPlayedOnce := false }
  else Except.ok s

/-- Parts 2 and 3 of `loop()` (part 1, the WiFi logic, only changes the configuration
between iterations). Both calls of `millis()` read the same `now`. -/
def loop (cfg : Config) (inp : Input) (s : State) : Except Fault State :=
  let s1 := audioEngine cfg inp.fsExists inp.finished s
  if sensorDue inp.now s1.lastSensorCheck then
    let r := readDistance inp.timeoutOccurred inp.rawDist { s1 with lastSensorCheck := inp.now }
    sensorLogic cfg inp.fsExists r.1 r.2
  else Except.ok s1

/-- Successive iterations of `loop()` under a fixed configuration. -/
def runLoop (cfg : Config) (inps : List Input) (s : State) : Except Fault State :=
  match inps with
  | [] => Except.ok s
  | inp :: rest =>
    match loop cfg inp s with
    | Except.ok s1 => runLoop cfg rest s1
    | Except.error e => Except.error e

/-- The filtered distance that the sensor step of the iteration with input `inp` sees from
state `s`, if the sensor step runs at all (the audio engine, which runs first, does not
touch the globals the filter and the timing test read). -/
def sensedDistance (inp : Input) (s : State) : Option Int :=
  if sensorDue inp.now s.lastSensorCheck then
    some (readDistance inp.timeoutOccurred inp.rawDist s).1
  else none

/-- Every sensor step of the run sees a filtered distance below the trigger distance. -/
def staysBelow (cfg : Config) (inps : List Input) (s : State) : Bool :=
  match inps with
  | [] => true
  | inp :: rest =>
    (match sensedDistance inp s with
      | some d => decide (d < cfg.config_trigger_mm)
      | none => true) &&
    (match loop cfg inp s with
      | Except.ok s1 => staysBelow cfg rest s1
      | Except.error _ => true)

/-- The filter outputs over a sequence of sensor readings, and the final globals. -/
def filterRun (samples : List (Bool × Nat)) (s : State) : List Int × State :=
  match samples with
  | [] => ([], s)
  | (t, raw) :: rest =>
    let r := readDistance t raw s
    let q := filterRun rest r.2
    (r.1 :: q.1, q.2)

/-- Invariant of a single-tone, non-looping run counted from `n0` playbacks begun: at most
one more has been begun, and if so presence is Active and that playback is still running or
has finished (`hasPlayedOnce`). -/
def oneStartInv (n0 : Nat) (s : State) : Prop :=
  n0 ≤ starts s.trace ∧ starts s.trace ≤ n0 + 1 ∧
    (starts s.trace = n0 + 1 →
      s.isActive = true ∧ (isRunning s.wav = true ∨ s.hasPlayedOnce = true))

/-- The default configuration with multi-tone mode switched on (trigger 800, spacing 50). -/
def multiToneConfig : Config := { defaultConfig with config_multitone := true }

/-- The default configuration with the largest hysteresis an `int` holds. -/
def wideHysteresisConfig : Config := { defaultConfig with config_hysteresis_mm := 2147483647 }

/-- The globals after `setup()` with presence Active. -/
def activeState : State := { initState with isActive := true }

/-- A file store holding the sample of note C only. -/
def fsOnlyC : String → Bool := fun f => decide (f = "/C.wav")

/-- An iteration in which the sensor step is due and reads `rawDist` without timeout. -/
def sensorTick (fsExists : String → Bool) (finished : Bool) (now rawDist : Nat) : Input :=
  { fsExists := fsExists, finished := finished, now := now, rawDist := rawDist,
    timeoutOccurred := false }

/-- An iteration in which only the audio engine runs when `now` is within 50 ms of
`lastSensorCheck`. -/
def audioTick (fsExists : String → Bool) (finished : Bool) (now : Nat) : Input :=
  { fsExists := fsExists, finished := finished, now := now, rawDist := 0,
    timeoutOccurred := false }

/-- Presence Active with note C playing in multi-tone mode. -/
def playingC : State :=
  { activeState with
    file := some "/C.wav", wav := some { running := true }, lastPlayedMultiNote := "C" }

/-- Successive sensor steps on the given filtered distances. -/
def sensorSteps (cfg : Config) (fsExists : String → Bool) (dists : List Int) (s : State) :
    Except Fault State :=
  match dists with
  | [] => Except.ok s
  | d :: rest =>
    match sensorLogic cfg fsExists d s with
    | Except.ok s1 => sensorSteps cfg fsExists rest s1
    | Except.error e => Except.error e

/-- What scenario A observes of a state: presence, a running decoder, and the events. -/
def observe (r : Except Fault State) : Except Fault (Bool × Bool × List Event) :=
  Except.map (fun s => (s.isActive, isRunning s.wav, s.trace)) r

/-- The five iterations of scenario A, the sensor step due in each. -/
def scenarioA : List Input :=
  [sensorTick fsOnlyC false 100 1000, sensorTick fsOnlyC false 200 750,
    sensorTick fsOnlyC false 300 750, sensorTick fsOnlyC false 400 900,
    sensorTick fsOnlyC false 500 1200]

end Main

/-! ## `src/main_simple.cpp` -/

namespace Simple

/-- The configuration globals of `main_simple.cpp` read by the core. -/
structure Config where
  config_trigger_mm : Int
  config_hysteresis_mm : Int
  deriving DecidableEq, Repr

/-- The values the globals are initialised with (nothing in the sketch changes them). -/
def defaultConfig : Config := { config_trigger_mm := 800, config_hysteresis_mm := 100 }

/-- The state globals of `main_simple.cpp`; `errorCounter` is the `static int` of `loop()`. -/
structure State where
  file : Option String
  wav : Option AudioGeneratorWAV
  out : Option Nat
  isActive : Bool
  lastSensorCheck : Nat
  lastDebugDistance : Nat
  lastValidDistance : Int
  errorCounter : Int
  trace : List Event
  deriving DecidableEq, Repr

/-- The globals after `setup()`. -/
def initState : State :=
  { file := none, wav := none, out := some 0, isActive := false, lastSensorCheck := 0,
    lastDebugDistance := 0, lastValidDistance := 9999, errorCounter := 0, trace := [] }

/-- The function `playTone()`; the ghost event names the sample `piano`. -/
def playTone (fsExists : String → Bool) (s : State) : State :=
  let s0 := { s with trace := Event.playTone "piano" :: s.trace }
  if isRunning s0.wav = true then s0
  else
    { s0 with
      file := some "/piano.wav"
      wav := some (wavBegin fsExists "/piano.wav")
      trace := Event.wavBegin "/piano.wav" s0.out :: s0.trace }

/-- The function `stopTone()`. -/
def stopTone (s : State) : State :=
  let s0 := { s with trace := Event.stopTone :: s.trace }
  let s1 := if isRunning s0.wav = true then
      { s0 with trace := Event.wavStop :: s0.trace } else s0
  { s1 with wav := none, file := none }

/-- Part 1 of `loop()`, the audio engine loop. -/
def audioEngine (finished : Bool) (s : State) : State :=
  match s.wav with
  | none => s
  | some w =>
    if w.running = true then
      let s1 := { s with wav := some (wavLoop finished w) }
      if isRunning s1.wav = false then stopTone s1 else s1
    else s

/-- The jitter filter of `loop()`: the filtered `dist` and the updated globals. -/
def readDistance (timeoutOccurred : Bool) (rawDist : Nat) (s : State) : Int × State :=
  if timeoutOccurred = true ∨ rawDist > 8000 then
    let e := wrapInt (s.errorCounter + 1)
    if e > 10 then (9999, { s with errorCounter := e, lastValidDistance := 9999 })
    else (s.lastValidDistance, { s with errorCounter := e })
  else ((rawDist : Int), { s with errorCounter := 0, lastValidDistance := (rawDist : Int) })

/-- The debug output block: `lastDebugDistance` (a `uint16_t`) follows `dist` when they
differ by more than 50. -/
def debugOutput (dist : Int) (s : State) : State :=
  if |wrapInt (dist - (s.lastDebugDistance : Int))| > 50 then
    { s with lastDebugDistance := (dist % 65536).toNat }
  else s

/-- The `--- Logic ---` block of `loop()` for the filtered distance `dist`. -/
def sensorLogic (cfg : Config) (fsExists : String → Bool) (dist : Int) (s : State) : State :=
  if s.isActive = false ∧ dist < cfg.config_trigger_mm then
    playTone fsExists { s with isActive := true }
  else if s.isActive = true ∧
      dist > wrapInt (cfg.config_trigger_mm + cfg.config_hysteresis_mm) then
    stopTone { s with isActive := false }
  else s

/-- The function `loop()`. Both calls of `millis()` read the same `now`. -/
def loop (cfg : Config) (inp : Input) (s : State) : State :=
  let s1 := audioEngine inp.finished s
  if sensorDue inp.now s1.lastSensorCheck then
    let r := readDistance inp.timeoutOccurred inp.rawDist { s1 with lastSensorCheck := inp.now }
    sensorLogic cfg inp.fsExists r.1 (debugOutput r.1 r.2)
  else s1

/-- Successive iterations of `loop()`. -/
def runLoop (cfg : Config) (inps : List Input) (s : State) : State :=
  match inps with
  | [] => s
  | inp :: rest => runLoop cfg rest (loop cfg inp s)

/-- The filter outputs over a sequence of sensor readings, and the final globals. -/
def filterRun (samples : List (Bool × Nat)) (s : State) : List Int × State :=
  match samples with
  | [] => ([], s)
  | (t, raw) :: rest =>
    let r := readDistance t raw s
    let q := filterRun rest r.2
    (r.1 :: q.1, q.2)

/-- The globals after `setup()` with presence Active. -/
def activeState : State := { initState with isActive := true }

end Simple

/-! ## Auxiliary definitions for the invariants and the comparison of the sketches -/

/-- Number of `playTone` calls in a trace. -/
def plays (tr : List Event) : Nat :=
  match tr with
  | [] => 0
  | Event.playTone _ :: rest => plays rest + 1
  | _ :: rest => plays rest

/-- Every playback recorded in the trace was begun on the sink `o`. -/
def beginsOn (o : Option Nat) (tr : List Event) : Prop :=
  ∀ f o1, Event.wavBegin f o1 ∈ tr → o1 = o

/-- A file store holding no sample at all. -/
def fsNone : String → Bool := fun _ => false

/-- A file store holding every file asked for. -/
def fsAll : String → Bool := fun _ => true

namespace Main

/-- Multi-tone mode with a note spacing of zero. -/
def zeroSpacingConfig : Config := { multiToneConfig with config_note_spacing_mm := 0 }

/-- Multi-tone mode with a negative note spacing. -/
def negativeSpacingConfig : Config := { multiToneConfig with config_note_spacing_mm := -50 }

end Main

namespace Simple

/-- Presence is Active after every iteration of the run. -/
def staysActive (cfg : Config) (inps : List Input) (s : State) : Bool :=
  match inps with
  | [] => true
  | inp :: rest => (loop cfg inp s).isActive && staysActive cfg rest (loop cfg inp s)

end Simple

/-- The sink pointer of `main.cpp` is `o` and every playback so far was begun on it. -/
def Main.sinkKept (o : Option Nat) (s : Main.State) : Prop :=
  s.out = o ∧ beginsOn o s.trace

/-- The sink pointer of `main_simple.cpp` is `o` and every playback so far was begun on
it. -/
def Simple.sinkKept (o : Option Nat) (s : Simple.State) : Prop :=
  s.out = o ∧ beginsOn o s.trace

namespace Main

/-- Idle is silent: when presence is Idle there is no decoder and no source,
`hasPlayedOnce` is false and no last played note is recorded. -/
def idleSilent (s : State) : Prop :=
  s.isActive = false →
    s.wav = none ∧ s.file = none ∧ s.hasPlayedOnce = false ∧ s.lastPlayedMultiNote = ""

/-- The running decoder plays the note recorded as last played, a note of `NOTES`. -/
def tracksPlaying (s : State) : Prop :=
  isRunning s.wav = true →
    s.file = some (filename s.lastPlayedMultiNote) ∧ s.lastPlayedMultiNote ∈ NOTES

/-- The file store of every iteration holds the sample of every note of `NOTES`. -/
def allSamplesStored (inps : List Input) : Prop :=
  ∀ inp ∈ inps, ∀ n ∈ NOTES, inp.fsExists (filename n) = true

/-- Two readings in multi-tone mode with every sample stored: band 0, then band 1. -/
def twoNoteRun : List Input :=
  [sensorTick fsAll false 100 790, sensorTick fsAll false 200 740]

/-- The state `twoNoteRun` ends in from the state after `setup()`: note D is playing. -/
def playingD : State :=
  { initState with
    file := some "/D.wav", wav := some { running := true }, isActive := true,
    lastSensorCheck := 200, lastValidDistance := 740, lastPlayedMultiNote := "D",
    trace := [Event.wavBegin "/D.wav" (some 0), Event.playTone "D",
      Event.wavBegin "/C.wav" (some 0), Event.playTone "C"] }

end Main

/-- What the comparison of the two sketches keeps equal (presence, a running decoder, the
timing and filter globals, the number of playbacks begun), together with the fact that in
`main.cpp` an Active presence without a running decoder has `hasPlayedOnce` set. -/
def variantsAgree (m : Main.State) (t : Simple.State) : Prop :=
  m.isActive = t.isActive ∧ isRunning m.wav = isRunning t.wav ∧
    m.lastSensorCheck = t.lastSensorCheck ∧ m.err = t.errorCounter ∧
    m.lastValidDistance = t.lastValidDistance ∧ starts m.trace = starts t.trace ∧
    (m.isActive = true → isRunning m.wav = false → m.hasPlayedOnce = true)

/-- Five iterations with every sample stored: entry at 750 mm, a completion, a reading in
the hysteresis band, an exit at 1200 mm and a new entry. -/
def Main.comparisonRun : List Input :=
  [Main.sensorTick fsAll false 100 750, Main.sensorTick fsAll true 200 750,
    Main.sensorTick fsAll false 300 850, Main.sensorTick fsAll false 400 1200,
    Main.sensorTick fsAll false 500 700]

end PianoStairs

/-! # Theorems -/

namespace PianoStairs

/-! ## Machine integers -/

theorem wrapInt_eq_self (x : Int) (h : isInt x) : wrapInt x = x := by
  unfold isInt INT_MIN INT_MAX at h
  unfold wrapInt
  omega

theorem isRunning_some (w : AudioGeneratorWAV) : isRunning (some w) = w.running := rfl

theorem isRunning_none : isRunning none = false := rfl

theorem clamp_index_bounds (q : Int) (hq : 0 ≤ q) :
    0 ≤ (if q ≥ Main.NUM_NOTES then Main.NUM_NOTES - 1 else q) ∧
      (if q ≥ Main.NUM_NOTES then Main.NUM_NOTES - 1 else q) ≤ 6 := by
  unfold Main.NUM_NOTES
  split <;> omega

theorem Main.noteIndex_in_range (cfg : Main.Config) (d : Int)
    (hsp : 0 < cfg.config_note_spacing_mm) :
    ∃ i, Main.noteIndex cfg d = Except.ok i ∧ 0 ≤ i ∧ i ≤ 6 := by
  unfold Main.noteIndex
  have hne : cfg.config_note_spacing_mm ≠ 0 := by omega
  simp only [hne, if_false]
  have hdiff : 0 ≤ (if wrapInt (cfg.config_trigger_mm - d) < 0 then (0 : Int)
      else wrapInt (cfg.config_trigger_mm - d)) := by
    split <;> omega
  have hq := Int.tdiv_nonneg hdiff (Int.le_of_lt hsp)
  exact ⟨_, rfl, clamp_index_bounds _ hq⟩

theorem Main.targetNote_ok (cfg : Main.Config) (d : Int)
    (hsp : cfg.config_multitone = true → 0 < cfg.config_note_spacing_mm) :
    ∃ t, Main.targetNote cfg d = Except.ok t := by
  unfold Main.targetNote
  by_cases hm : cfg.config_multitone = true
  · obtain ⟨i, hi, h0, h6⟩ := Main.noteIndex_in_range cfg d (hsp hm)
    simp only [hm, if_true, hi]
    unfold Main.readNOTES
    have : 0 ≤ i ∧ i < Main.NUM_NOTES := by simp only [Main.NUM_NOTES]; omega
    simp only [this, and_self, if_true]
    exact ⟨_, rfl⟩
  · simp only [hm, if_false]
    exact ⟨_, rfl⟩

theorem Main.playTone_isActive (cfg : Main.Config) (fs : String → Bool) (n : String)
    (s : Main.State) : (Main.playTone cfg fs n s).isActive = s.isActive := by
  unfold Main.playTone
  simp only
  split
  · rfl
  · split <;> split <;> rfl

theorem Main.stopTone_isActive (s : Main.State) : (Main.stopTone s).isActive = s.isActive := by
  unfold Main.stopTone
  simp only
  split <;> split <;> rfl

theorem Simple.playTone_isActive_simple (fs : String → Bool)
    (s : Simple.State) : (Simple.playTone fs s).isActive = s.isActive := by
  unfold Simple.playTone
  simp only
  split <;> rfl

theorem Simple.stopTone_isActive_simple (s : Simple.State) :
    (Simple.stopTone s).isActive = s.isActive := by
  unfold Simple.stopTone
  simp only
  split <;> rfl

/-- C1 (amended). For a configuration with `hysteresisMm ≥ 0` whose `int` sum
`trigger + hysteresis` does not overflow (and, in multi-tone mode of `main.cpp`, a positive
note spacing, so that the step completes), and every filtered distance `d`: the sensor step
of `main.cpp` and of `main_simple.cpp` takes presence from Idle to Active iff `d < trigger`
and from Active to Idle iff `d > trigger + hysteresis`; while Active with
`trigger ≤ d ≤ trigger + hysteresis`, and while Idle with `d ≥ trigger`, the step changes
nothing at all. -/
theorem hysteresis_dead_zone (cfg : Main.Config) (cs : Simple.Config)
    (fsExists : String → Bool) (d : Int) (s : Main.State) (t : Simple.State)
    (hh : 0 ≤ cfg.config_hysteresis_mm) (ht : isInt cfg.config_trigger_mm)
    (hsum : cfg.config_trigger_mm + cfg.config_hysteresis_mm ≤ INT_MAX)
    (hsp : cfg.config_multitone = true → 0 < cfg.config_note_spacing_mm)
    (hh2 : 0 ≤ cs.config_hysteresis_mm) (ht2 : isInt cs.config_trigger_mm)
    (hsum2 : cs.config_trigger_mm + cs.config_hysteresis_mm ≤ INT_MAX) :
    (∃ s1, Main.sensorLogic cfg fsExists d s = Except.ok s1 ∧
      (s.isActive = false → (s1.isActive = true ↔ d < cfg.config_trigger_mm)) ∧
      (s.isActive = true →
        (s1.isActive = false ↔ d > cfg.config_trigger_mm + cfg.config_hysteresis_mm)) ∧
      (s.isActive = true → cfg.config_trigger_mm ≤ d →
        d ≤ cfg.config_trigger_mm + cfg.config_hysteresis_mm → s1 = s) ∧
      (s.isActive = false → cfg.config_trigger_mm ≤ d → s1 = s)) ∧
    ((t.isActive = false →
        ((Simple.sensorLogic cs fsExists d t).isActive = true ↔ d < cs.config_trigger_mm)) ∧
      (t.isActive = true → ((Simple.sensorLogic cs fsExists d t).isActive = false ↔
        d > cs.config_trigger_mm + cs.config_hysteresis_mm)) ∧
      (t.isActive = true → cs.config_trigger_mm ≤ d →
        d ≤ cs.config_trigger_mm + cs.config_hysteresis_mm →
        Simple.sensorLogic cs fsExists d t = t) ∧
      (t.isActive = false → cs.config_trigger_mm ≤ d →
        Simple.sensorLogic cs fsExists d t = t)) := by
  have hw : wrapInt (cfg.config_trigger_mm + cfg.config_hysteresis_mm) =
      cfg.config_trigger_mm + cfg.config_hysteresis_mm := by
    apply wrapInt_eq_self
    unfold isInt at *
    constructor <;> omega
  have hw2 : wrapInt (cs.config_trigger_mm + cs.config_hysteresis_mm) =
      cs.config_trigger_mm + cs.config_hysteresis_mm := by
    apply wrapInt_eq_self
    unfold isInt at *
    constructor <;> omega
  constructor
  · unfold Main.sensorLogic
    rw [hw]
    obtain ⟨tn, htn⟩ := Main.targetNote_ok cfg d hsp
    by_cases hlt : d < cfg.config_trigger_mm
    · simp only [hlt, if_true, htn]
      refine ⟨_, rfl, ?_, ?_, ?_, ?_⟩
      · intro hs
        simp [hs, apply_ite Main.State.isActive, Main.playTone_isActive]
      · intro hs
        simp only [apply_ite Main.State.isActive, Main.playTone_isActive, hs]
        simp
        omega
      · intro _ h; omega
      · intro _ h; omega
    · simp only [hlt, if_false]
      by_cases hex : s.isActive = true ∧
          d > cfg.config_trigger_mm + cfg.config_hysteresis_mm
      · simp only [hex, and_self, if_true]
        refine ⟨_, rfl, ?_, ?_, ?_, ?_⟩
        · intro hs; simp [hex.1] at hs
        · intro _; simp [Main.stopTone_isActive, hex.2]
        · intro _ _ h; omega
        · intro hs; simp [hex.1] at hs
      · simp only [hex, if_false]
        refine ⟨_, rfl, ?_, ?_, ?_, ?_⟩
        · intro hs; simp [hs, hlt]
        · intro hs
          simp only [hs, true_and] at hex
          simp [hs, hex]
        · intros; rfl
        · intros; rfl
  · unfold Simple.sensorLogic
    rw [hw2]
    refine ⟨?_, ?_, ?_, ?_⟩
    · intro hs
      by_cases hlt : d < cs.config_trigger_mm
      · simp [hs, hlt, Simple.playTone_isActive_simple]
      · simp [hs, hlt]
    · intro hs
      by_cases hgt : d > cs.config_trigger_mm + cs.config_hysteresis_mm
      · simp [hs, hgt, Simple.stopTone_isActive_simple]
      · simp [hs, hgt]
    · intro hs h1 h2
      have hgt : ¬ d > cs.config_trigger_mm + cs.config_hysteresis_mm := by omega
      simp [hs, hgt]
    · intro hs h1
      have hlt : ¬ d < cs.config_trigger_mm := by omega
      simp [hs, hlt]


/-- Witness of C1: the default configurations at 900 mm while Active, inside the band
`[800, 900]`, leave the state unchanged. -/
theorem hysteresis_dead_zone_witness :
    (∃ s1, Main.sensorLogic Main.defaultConfig Main.fsOnlyC 900 Main.activeState =
        Except.ok s1 ∧ s1 = Main.activeState) ∧
      Simple.sensorLogic Simple.defaultConfig Main.fsOnlyC 900 Simple.activeState =
        Simple.activeState := by
  have h := hysteresis_dead_zone Main.defaultConfig Simple.defaultConfig Main.fsOnlyC 900
    Main.activeState Simple.activeState (by decide) (by decide) (by decide) (by decide)
    (by decide) (by decide) (by decide)
  obtain ⟨⟨s1, h1, _, _, h3, _⟩, _, _, h4, _⟩ := h
  exact ⟨⟨s1, h1, h3 rfl (by decide) (by decide)⟩, h4 rfl (by decide) (by decide)⟩

/-- Counterexample to C1 as stated: hysteresis 2147483647 is non-negative and 900 mm lies
in the band `[trigger, trigger + hysteresis]`, yet the `int` sum wraps to a negative number
and the sensor step of `main.cpp` leaves Active, both from the Active state after `setup()`
and in a run of `loop()` that enters at 750 mm and then reads 900 mm. -/
theorem hysteresis_overflow_counterexample :
    0 ≤ Main.wideHysteresisConfig.config_hysteresis_mm ∧
      Main.wideHysteresisConfig.config_trigger_mm ≤ 900 ∧
      900 ≤ Main.wideHysteresisConfig.config_trigger_mm +
        Main.wideHysteresisConfig.config_hysteresis_mm ∧
      Main.activeState.isActive = true ∧
      Except.map (fun s => s.isActive)
        (Main.sensorLogic Main.wideHysteresisConfig Main.fsOnlyC 900 Main.activeState) =
        Except.ok false ∧
      Except.map (fun s => s.isActive)
        (Main.runLoop Main.wideHysteresisConfig
          [Main.sensorTick Main.fsOnlyC false 100 750] Main.initState) = Except.ok true ∧
      Except.map (fun s => s.isActive)
        (Main.runLoop Main.wideHysteresisConfig
          [Main.sensorTick Main.fsOnlyC false 100 750,
            Main.sensorTick Main.fsOnlyC false 200 900] Main.initState) =
        Except.ok false := by
  decide

namespace Main

theorem playTone_frame (cfg : Config) (fs : String → Bool) (n : String) (s : State) :
    (playTone cfg fs n s).isActive = s.isActive ∧
    (playTone cfg fs n s).hasPlayedOnce = s.hasPlayedOnce ∧
    (playTone cfg fs n s).lastSensorCheck = s.lastSensorCheck ∧
    (playTone cfg fs n s).lastValidDistance = s.lastValidDistance ∧
    (playTone cfg fs n s).err = s.err ∧
    (playTone cfg fs n s).out = s.out := by
  unfold playTone
  simp only
  split
  · simp
  · split <;> split <;> simp

theorem stopTone_frame (s : State) :
    (stopTone s).isActive = s.isActive ∧
    (stopTone s).hasPlayedOnce = s.hasPlayedOnce ∧
    (stopTone s).lastSensorCheck = s.lastSensorCheck ∧
    (stopTone s).lastValidDistance = s.lastValidDistance ∧
    (stopTone s).err = s.err ∧
    (stopTone s).out = s.out ∧
    (stopTone s).wav = none ∧
    (stopTone s).file = none ∧
    starts (stopTone s).trace = starts s.trace := by
  unfold stopTone
  simp only
  split <;> split <;> simp [starts]

theorem audioEngine_frame (cfg : Config) (fs : String → Bool) (fin : Bool) (s : State) :
    (audioEngine cfg fs fin s).isActive = s.isActive ∧
    (audioEngine cfg fs fin s).lastSensorCheck = s.lastSensorCheck ∧
    (audioEngine cfg fs fin s).lastValidDistance = s.lastValidDistance ∧
    (audioEngine cfg fs fin s).err = s.err ∧
    (audioEngine cfg fs fin s).out = s.out := by
  unfold audioEngine
  split
  · simp
  · split
    · simp only
      split
      · split
        · simp [playTone_frame]
        · simp [stopTone_frame]
      · simp
    · simp

theorem readDistance_frame (t : Bool) (raw : Nat) (s : State) :
    (readDistance t raw s).2.isActive = s.isActive ∧
    (readDistance t raw s).2.hasPlayedOnce = s.hasPlayedOnce ∧
    (readDistance t raw s).2.wav = s.wav ∧
    (readDistance t raw s).2.file = s.file ∧
    (readDistance t raw s).2.out = s.out ∧
    (readDistance t raw s).2.lastPlayedMultiNote = s.lastPlayedMultiNote ∧
    (readDistance t raw s).2.lastSensorCheck = s.lastSensorCheck ∧
    (readDistance t raw s).2.trace = s.trace := by
  unfold readDistance
  split
  · simp only
    split <;> simp
  · simp

theorem readDistance_fst_congr (t : Bool) (raw : Nat) (s u : State)
    (he : s.err = u.err) (hv : s.lastValidDistance = u.lastValidDistance) :
    (readDistance t raw s).1 = (readDistance t raw u).1 := by
  unfold readDistance
  rw [he, hv]
  split
  · simp only
    split <;> rfl
  · rfl


theorem audioEngine_oneStartInv (cfg : Config) (fs : String → Bool) (fin : Bool) (s : State)
    (n0 : Nat) (hl : cfg.config_loop = false) (h : oneStartInv n0 s) :
    oneStartInv n0 (audioEngine cfg fs fin s) := by
  unfold audioEngine
  split
  · exact h
  · rename_i w hw
    split
    · rename_i hr
      simp only
      obtain ⟨h1, h2, h3⟩ := h
      split
      · simp only [hl, false_and, if_false, Bool.false_eq_true]
        unfold oneStartInv
        simp only [stopTone_frame, or_true, and_true]
        exact ⟨h1, h2, fun e => (h3 e).1⟩
      · rename_i hrun
        unfold oneStartInv
        simp only [Bool.not_eq_false] at hrun
        simp only [hrun, true_or, and_true]
        exact ⟨h1, h2, fun e => (h3 e).1⟩
    · exact h

theorem sensorLogic_oneStartInv (cfg : Config) (fs : String → Bool) (d : Int) (s : State)
    (n0 : Nat) (hm : cfg.config_multitone = false) (hd : d < cfg.config_trigger_mm)
    (h : oneStartInv n0 s) :
    ∃ s1, sensorLogic cfg fs d s = Except.ok s1 ∧ oneStartInv n0 s1 := by
  unfold sensorLogic targetNote
  simp only [hd, if_true, hm, Bool.false_eq_true, if_false, false_and]
  refine ⟨_, rfl, ?_⟩
  unfold oneStartInv at *
  obtain ⟨h1, h2, h3⟩ := h
  unfold playTone
  simp only [hm, and_true, Bool.false_eq_true, false_and, or_false, if_false]
  cases hact : s.isActive
  · have hn : starts s.trace = n0 := by
      by_contra hne
      have hs : starts s.trace = n0 + 1 := by omega
      have hc := (h3 hs).1
      simp [hact] at hc
    cases hr : isRunning s.wav <;> cases hf : fs (filename cfg.active_note) <;>
      simp [starts, hn, hr, hf, isRunning_some, wavBegin]
  · cases hp : s.hasPlayedOnce
    · cases hr : isRunning s.wav
      · have hn : starts s.trace = n0 := by
          by_contra hne
          have hs : starts s.trace = n0 + 1 := by omega
          have hc := (h3 hs).2
          simp [hp, hr] at hc
        cases hf : fs (filename cfg.active_note) <;>
          simp [starts, hn, hr, hf, hp, hact, isRunning_some, wavBegin]
      · simp only [starts, hr, hp, hact, if_true, Bool.true_eq_false, if_false]
        simp only [hr, hp, hact] at h3
        exact ⟨h1, h2, h3⟩
    · simp only [hp, hact, Bool.true_eq_false, if_false]
      simp only [hp, hact] at h3
      exact ⟨h1, h2, h3⟩


theorem oneStartInv_congr (n0 : Nat) (s u : State) (ht : u.trace = s.trace)
    (ha : u.isActive = s.isActive) (hw : u.wav = s.wav)
    (hp : u.hasPlayedOnce = s.hasPlayedOnce) (h : oneStartInv n0 s) : oneStartInv n0 u := by
  unfold oneStartInv at *
  rw [ht, ha, hw, hp]
  exact h

theorem loop_oneStartInv (cfg : Config) (inp : Input) (s : State) (n0 : Nat)
    (hm : cfg.config_multitone = false) (hl : cfg.config_loop = false)
    (hd : ∀ d, sensedDistance inp s = some d → d < cfg.config_trigger_mm)
    (h : oneStartInv n0 s) :
    ∃ s1, loop cfg inp s = Except.ok s1 ∧ oneStartInv n0 s1 := by
  have ha := audioEngine_oneStartInv cfg inp.fsExists inp.finished s n0 hl h
  obtain ⟨_, f2, f3, f4, _⟩ := audioEngine_frame cfg inp.fsExists inp.finished s
  unfold loop
  simp only [f2]
  by_cases hdue : sensorDue inp.now s.lastSensorCheck
  · simp only [hdue, if_true]
    have hlt : (readDistance inp.timeoutOccurred inp.rawDist
        { audioEngine cfg inp.fsExists inp.finished s with lastSensorCheck := inp.now }).1 <
        cfg.config_trigger_mm := by
      rw [readDistance_fst_congr inp.timeoutOccurred inp.rawDist
        { audioEngine cfg inp.fsExists inp.finished s with lastSensorCheck := inp.now } s f4 f3]
      apply hd
      unfold sensedDistance
      simp only [hdue, if_true]
    apply sensorLogic_oneStartInv cfg inp.fsExists _ _ n0 hm hlt
    obtain ⟨r1, r2, r3, _, _, _, _, r8⟩ := readDistance_frame inp.timeoutOccurred inp.rawDist
      { audioEngine cfg inp.fsExists inp.finished s with lastSensorCheck := inp.now }
    exact oneStartInv_congr n0 _ _ r8 r1 r3 r2
      (oneStartInv_congr n0 _ _ rfl rfl rfl rfl ha)
  · simp only [hdue, if_false]
    exact ⟨_, rfl, ha⟩

theorem runLoop_oneStartInv (cfg : Config) (inps : List Input)
    (hm : cfg.config_multitone = false) (hl : cfg.config_loop = false) :
    ∀ (s : State) (n0 : Nat), staysBelow cfg inps s = true → oneStartInv n0 s →
      ∃ s1, runLoop cfg inps s = Except.ok s1 ∧ oneStartInv n0 s1 := by
  induction inps with
  | nil =>
    intro s n0 _ h
    exact ⟨s, rfl, h⟩
  | cons inp rest ih =>
    intro s n0 hb h
    simp only [staysBelow, Bool.and_eq_true] at hb
    obtain ⟨hd, hrest⟩ := hb
    have hd1 : ∀ d, sensedDistance inp s = some d → d < cfg.config_trigger_mm := by
      intro d hsd
      rw [hsd] at hd
      simpa using hd
    obtain ⟨s1, hs1, hinv⟩ := loop_oneStartInv cfg inp s n0 hm hl hd1 h
    rw [hs1] at hrest
    obtain ⟨s2, hs2, hinv2⟩ := ih s1 n0 hrest hinv
    refine ⟨s2, ?_, hinv2⟩
    simp only [runLoop, hs1]
    exact hs2

/-- C2. Single-tone mode, loop disabled, fixed configuration: over every sequence of
iterations of `loop()` whose sensor steps all see a filtered distance below the trigger
distance (one Active episode, entry included), whatever the decoder's completion signals
and the file store do, the run completes and at most one playback is begun (`wav->begin`
is reached at most once). -/
theorem single_tone_at_most_one_start (cfg : Config) (inps : List Input) (s : State)
    (hm : cfg.config_multitone = false) (hl : cfg.config_loop = false)
    (hb : staysBelow cfg inps s = true) :
    ∃ s1, runLoop cfg inps s = Except.ok s1 ∧ starts s1.trace ≤ starts s.trace + 1 := by
  have h0 : oneStartInv (starts s.trace) s := by
    unfold oneStartInv
    refine ⟨le_refl _, by omega, fun e => ?_⟩
    omega
  obtain ⟨s1, h1, h2⟩ := runLoop_oneStartInv cfg inps hm hl s _ hb h0
  exact ⟨s1, h1, h2.2.1⟩

/-- Witness of C2: entry at 750 mm, a completion, and two more sensor steps at 750 mm. -/
theorem single_tone_at_most_one_start_witness :
    ∃ s1, runLoop defaultConfig
        [sensorTick fsOnlyC false 100 750, sensorTick fsOnlyC true 200 750,
          sensorTick fsOnlyC false 300 750, sensorTick fsOnlyC false 400 750] initState =
          Except.ok s1 ∧ starts s1.trace ≤ starts initState.trace + 1 :=
  single_tone_at_most_one_start defaultConfig _ initState (by decide) (by decide) (by decide)


/-! ## Note mapper -/

theorem noteIndex_eq (cfg : Config) (d : Int) (hsp : 0 < cfg.config_note_spacing_mm)
    (ht : isInt cfg.config_trigger_mm) (hd0 : 0 ≤ d) (hd : d < cfg.config_trigger_mm) :
    noteIndex cfg d =
      Except.ok (min 6 ((cfg.config_trigger_mm - d) / cfg.config_note_spacing_mm)) := by
  have hw : wrapInt (cfg.config_trigger_mm - d) = cfg.config_trigger_mm - d := by
    apply wrapInt_eq_self
    unfold isInt INT_MIN INT_MAX at *
    constructor <;> omega
  unfold noteIndex
  have hne : cfg.config_note_spacing_mm ≠ 0 := by omega
  have hpos : ¬ (cfg.config_trigger_mm - d < 0) := by omega
  simp only [hw, hne, hpos, if_false]
  rw [Int.tdiv_eq_ediv (by omega) (Int.le_of_lt hsp)]
  congr 1
  unfold NUM_NOTES
  split <;> omega

theorem readNOTES_min (q : Int) (hq : 0 ≤ q) :
    readNOTES (min 6 q) = Except.ok (NOTES.getD (min 6 q).toNat "") := by
  unfold readNOTES NUM_NOTES
  have : 0 ≤ min 6 q ∧ min 6 q < 7 := by omega
  simp only [this, and_self, if_true]

/-- C3. Multi-tone mode with positive spacing: for a trigger distance that is an `int` and
a filtered distance `0 ≤ d < trigger`, the target note of the sensor step is
`NOTES[min(NUM_NOTES-1, floor(max(0, trigger - d) / spacing))]`; in single-tone mode it is
`active_note`; with trigger 800 and spacing 50 the notes at 750, 700 and 0 mm are D, E and
H. -/
theorem target_note_formula (cfg : Config) (d : Int)
    (hsp : 0 < cfg.config_note_spacing_mm) (ht : isInt cfg.config_trigger_mm)
    (hd0 : 0 ≤ d) (hd : d < cfg.config_trigger_mm) :
    targetNote { cfg with config_multitone := true } d =
        Except.ok (NOTES.getD
          (min (NUM_NOTES - 1)
            (max 0 (cfg.config_trigger_mm - d) / cfg.config_note_spacing_mm)).toNat "") ∧
      targetNote { cfg with config_multitone := false } d = Except.ok cfg.active_note ∧
      targetNote multiToneConfig 750 = Except.ok "D" ∧
      targetNote multiToneConfig 700 = Except.ok "E" ∧
      targetNote multiToneConfig 0 = Except.ok "H" := by
  refine ⟨?_, ?_, by decide, by decide, by decide⟩
  · have hmax : max 0 (cfg.config_trigger_mm - d) = cfg.config_trigger_mm - d := by omega
    have hq : 0 ≤ (cfg.config_trigger_mm - d) / cfg.config_note_spacing_mm :=
      Int.ediv_nonneg (by omega) (Int.le_of_lt hsp)
    have hi := noteIndex_eq { cfg with config_multitone := true } d hsp ht hd0 hd
    unfold targetNote
    simp only [if_true, hi, hmax]
    have h6 : NUM_NOTES - 1 = 6 := by decide
    rw [h6]
    exact readNOTES_min _ hq
  · unfold targetNote
    simp

/-- Witness of C3: trigger 800, spacing 50, distance 620 (depth 180, band 3, note F). -/
theorem target_note_formula_witness :
    targetNote { multiToneConfig with config_multitone := true } 620 = Except.ok "F" :=
  (target_note_formula multiToneConfig 620 (by decide) (by decide) (by decide)
    (by decide)).1


/-- C4. For a positive spacing, a trigger distance that is an `int` and filtered distances
`0 ≤ d1 ≤ d2 < trigger`, the note index is computed for both, lies in `[0, 6]`, and the
index of the closer distance `d1` is at least that of `d2`; one more `noteSpacingMm` of
depth raises the index by exactly one, saturating at `NUM_NOTES - 1 = 6`. -/
theorem note_index_monotone (cfg : Config) (d1 d2 : Int)
    (hsp : 0 < cfg.config_note_spacing_mm) (ht : isInt cfg.config_trigger_mm)
    (h0 : 0 ≤ d1) (h12 : d1 ≤ d2) (h2 : d2 < cfg.config_trigger_mm) :
    ∃ i1 i2, noteIndex cfg d1 = Except.ok i1 ∧ noteIndex cfg d2 = Except.ok i2 ∧
      i2 ≤ i1 ∧ 0 ≤ i2 ∧ i1 ≤ NUM_NOTES - 1 ∧
      (cfg.config_note_spacing_mm ≤ d2 →
        noteIndex cfg (d2 - cfg.config_note_spacing_mm) =
          Except.ok (min (NUM_NOTES - 1) (i2 + 1))) := by
  have e1 := noteIndex_eq cfg d1 hsp ht h0 (by omega)
  have e2 := noteIndex_eq cfg d2 hsp ht (by omega) h2
  have hmono : (cfg.config_trigger_mm - d2) / cfg.config_note_spacing_mm ≤
      (cfg.config_trigger_mm - d1) / cfg.config_note_spacing_mm :=
    Int.ediv_le_ediv hsp (by omega)
  have hq2 : 0 ≤ (cfg.config_trigger_mm - d2) / cfg.config_note_spacing_mm :=
    Int.ediv_nonneg (by omega) (Int.le_of_lt hsp)
  have h6 : NUM_NOTES - 1 = 6 := by decide
  refine ⟨_, _, e1, e2, ?_, ?_, ?_, ?_⟩
  · omega
  · omega
  · rw [h6]; omega
  · intro hdeep
    rw [noteIndex_eq cfg (d2 - cfg.config_note_spacing_mm) hsp ht (by omega) (by omega), h6]
    have hstep : (cfg.config_trigger_mm - (d2 - cfg.config_note_spacing_mm)) /
        cfg.config_note_spacing_mm =
        (cfg.config_trigger_mm - d2) / cfg.config_note_spacing_mm + 1 := by
      have hrw : cfg.config_trigger_mm - (d2 - cfg.config_note_spacing_mm) =
          (cfg.config_trigger_mm - d2) + 1 * cfg.config_note_spacing_mm := by ring
      rw [hrw, Int.add_mul_ediv_right _ _ (by omega)]
    rw [hstep]
    congr 1
    omega

/-- Witness of C4: trigger 800, spacing 50, distances 700 and 750. -/
theorem note_index_monotone_witness :
    ∃ i1 i2, noteIndex multiToneConfig 700 = Except.ok i1 ∧
      noteIndex multiToneConfig 750 = Except.ok i2 ∧ i2 ≤ i1 ∧ 0 ≤ i2 ∧
      i1 ≤ NUM_NOTES - 1 ∧
      (multiToneConfig.config_note_spacing_mm ≤ 750 →
        noteIndex multiToneConfig (750 - multiToneConfig.config_note_spacing_mm) =
          Except.ok (min (NUM_NOTES - 1) (i2 + 1))) :=
  note_index_monotone multiToneConfig 700 750 (by decide) (by decide) (by decide)
    (by decide) (by decide)

end Main

/-! ## Distance filter -/

theorem wrapInt_succ_small (k : Nat) (hk : k ≤ 10) : wrapInt ((k : Int) + 1) = (k : Int) + 1 := by
  apply wrapInt_eq_self
  unfold isInt INT_MIN INT_MAX
  constructor <;> omega

theorem Main.filterRun_hold (errs : List (Bool × Nat)) :
    ∀ (s : Main.State) (k : Nat), s.err = (k : Int) → k + errs.length ≤ 10 →
      (∀ e ∈ errs, erroneous e) →
      (Main.filterRun errs s).1 = List.replicate errs.length s.lastValidDistance ∧
        (Main.filterRun errs s).2.lastValidDistance = s.lastValidDistance := by
  induction errs with
  | nil => intro s k _ _ _; exact ⟨rfl, rfl⟩
  | cons e rest ih =>
    intro s k hk hlen herr
    obtain ⟨t, raw⟩ := e
    have he : t = true ∨ raw > 8000 := herr (t, raw) (List.mem_cons_self _ _)
    simp only [List.length_cons] at hlen
    have hstep : Main.readDistance t raw s =
        (s.lastValidDistance, { s with err := ((k + 1 : Nat) : Int) }) := by
      unfold Main.readDistance
      rw [hk, wrapInt_succ_small k (by omega)]
      have hn : ¬ ((k : Int) + 1 > 10) := by omega
      simp only [he, if_true, hn, if_false]
      push_cast
      rfl
    have hrest := ih { s with err := ((k + 1 : Nat) : Int) } (k + 1) rfl (by omega)
      (fun x hx => herr x (List.mem_cons_of_mem _ hx))
    simp only [Main.filterRun, hstep, List.length_cons, List.replicate_succ]
    exact ⟨by rw [hrest.1], hrest.2⟩

theorem Simple.filterRun_hold_simple (errs : List (Bool × Nat)) :
    ∀ (s : Simple.State) (k : Nat), s.errorCounter = (k : Int) → k + errs.length ≤ 10 →
      (∀ e ∈ errs, erroneous e) →
      (Simple.filterRun errs s).1 = List.replicate errs.length s.lastValidDistance ∧
        (Simple.filterRun errs s).2.lastValidDistance = s.lastValidDistance := by
  induction errs with
  | nil => intro s k _ _ _; exact ⟨rfl, rfl⟩
  | cons e rest ih =>
    intro s k hk hlen herr
    obtain ⟨t, raw⟩ := e
    have he : t = true ∨ raw > 8000 := herr (t, raw) (List.mem_cons_self _ _)
    simp only [List.length_cons] at hlen
    have hstep : Simple.readDistance t raw s =
        (s.lastValidDistance, { s with errorCounter := ((k + 1 : Nat) : Int) }) := by
      unfold Simple.readDistance
      rw [hk, wrapInt_succ_small k (by omega)]
      have hn : ¬ ((k : Int) + 1 > 10) := by omega
      simp only [he, if_true, hn, if_false]
      push_cast
      rfl
    have hrest := ih { s with errorCounter := ((k + 1 : Nat) : Int) } (k + 1) rfl (by omega)
      (fun x hx => herr x (List.mem_cons_of_mem _ hx))
    simp only [Simple.filterRun, hstep, List.length_cons, List.replicate_succ]
    exact ⟨by rw [hrest.1], hrest.2⟩

theorem Main.readDistance_good (raw : Nat) (s : Main.State) (hgood : raw ≤ 8000) :
    Main.readDistance false raw s =
      ((raw : Int), { s with err := 0, lastValidDistance := (raw : Int) }) := by
  unfold Main.readDistance
  have hn : ¬ (false = true ∨ raw > 8000) := by simp; omega
  simp only [hn, if_false]

theorem Simple.readDistance_good_simple (raw : Nat) (s : Simple.State) (hgood : raw ≤ 8000) :
    Simple.readDistance false raw s =
      ((raw : Int), { s with errorCounter := 0, lastValidDistance := (raw : Int) }) := by
  unfold Simple.readDistance
  have hn : ¬ (false = true ∨ raw > 8000) := by simp; omega
  simp only [hn, if_false]

/-- C5. Bounded hold, in `main.cpp` and in `main_simple.cpp`: from any state of the filter,
after a good sample `raw` (no timeout, `raw ≤ 8000`) followed by a run of at most 10
erroneous samples, the filter output on the good sample and on every sample of the run is
`raw`, and `lastValidDistance` is still `raw` at the end of the run. -/
theorem filter_bounded_hold (s : Main.State) (u : Simple.State) (raw : Nat)
    (errs : List (Bool × Nat)) (hgood : raw ≤ 8000) (herr : ∀ e ∈ errs, erroneous e)
    (hlen : errs.length ≤ 10) :
    ((Main.filterRun ((false, raw) :: errs) s).1 =
        List.replicate (errs.length + 1) (raw : Int) ∧
      (Main.filterRun ((false, raw) :: errs) s).2.lastValidDistance = (raw : Int)) ∧
    ((Simple.filterRun ((false, raw) :: errs) u).1 =
        List.replicate (errs.length + 1) (raw : Int) ∧
      (Simple.filterRun ((false, raw) :: errs) u).2.lastValidDistance = (raw : Int)) := by
  constructor
  · have h := Main.filterRun_hold errs
      { s with err := 0, lastValidDistance := (raw : Int) } 0 rfl (by omega) herr
    simp only [Main.filterRun, Main.readDistance_good raw s hgood, List.replicate_succ]
    exact ⟨by rw [h.1], h.2⟩
  · have h := Simple.filterRun_hold_simple errs
      { u with errorCounter := 0, lastValidDistance := (raw : Int) } 0 rfl (by omega) herr
    simp only [Simple.filterRun, Simple.readDistance_good_simple raw u hgood, List.replicate_succ]
    exact ⟨by rw [h.1], h.2⟩

/-- Witness of C5: a good reading of 750 mm followed by a timeout and a reading of 8190. -/
theorem filter_bounded_hold_witness :
    ((Main.filterRun [(false, 750), (true, 0), (false, 8190)] Main.initState).1 =
        List.replicate 3 (750 : Int) ∧
      (Main.filterRun [(false, 750), (true, 0), (false, 8190)]
        Main.initState).2.lastValidDistance = 750) ∧
    ((Simple.filterRun [(false, 750), (true, 0), (false, 8190)] Simple.initState).1 =
        List.replicate 3 (750 : Int) ∧
      (Simple.filterRun [(false, 750), (true, 0), (false, 8190)]
        Simple.initState).2.lastValidDistance = 750) :=
  filter_bounded_hold Main.initState Simple.initState 750 [(true, 0), (false, 8190)]
    (by decide) (by decide) (by decide)


theorem Main.readDistance_eq_spec (t : Bool) (raw : Nat) (s : Main.State) :
    Main.readDistance t raw s =
      ((specFilter t raw
          { valueMm := s.lastValidDistance, consecutiveErrors := s.err }).valueMm,
        { s with
          err := (specFilter t raw
            { valueMm := s.lastValidDistance, consecutiveErrors := s.err }).consecutiveErrors
          lastValidDistance := (specFilter t raw
            { valueMm := s.lastValidDistance, consecutiveErrors := s.err }).valueMm }) := by
  unfold Main.readDistance specFilter
  split
  · simp only
    split <;> rfl
  · rfl

theorem Simple.readDistance_eq_spec_simple (t : Bool) (raw : Nat) (s : Simple.State) :
    Simple.readDistance t raw s =
      ((specFilter t raw
          { valueMm := s.lastValidDistance, consecutiveErrors := s.errorCounter }).valueMm,
        { s with
          errorCounter := (specFilter t raw
            { valueMm := s.lastValidDistance,
              consecutiveErrors := s.errorCounter }).consecutiveErrors
          lastValidDistance := (specFilter t raw
            { valueMm := s.lastValidDistance,
              consecutiveErrors := s.errorCounter }).valueMm }) := by
  unfold Simple.readDistance specFilter
  split
  · simp only
    split <;> rfl
  · rfl

theorem Main.readDistance_far (t : Bool) (raw : Nat) (s : Main.State)
    (he : erroneous (t, raw)) (hv : s.lastValidDistance = 9999) :
    (Main.readDistance t raw s).1 = 9999 ∧
      (Main.readDistance t raw s).2.lastValidDistance = 9999 := by
  unfold Main.readDistance
  have he1 : t = true ∨ raw > 8000 := he
  simp only [he1, if_true]
  split
  · exact ⟨rfl, rfl⟩
  · exact ⟨hv, hv⟩

theorem Simple.readDistance_far_simple (t : Bool) (raw : Nat) (s : Simple.State)
    (he : erroneous (t, raw)) (hv : s.lastValidDistance = 9999) :
    (Simple.readDistance t raw s).1 = 9999 ∧
      (Simple.readDistance t raw s).2.lastValidDistance = 9999 := by
  unfold Simple.readDistance
  have he1 : t = true ∨ raw > 8000 := he
  simp only [he1, if_true]
  split
  · exact ⟨rfl, rfl⟩
  · exact ⟨hv, hv⟩

theorem Main.filterRun_far (errs : List (Bool × Nat)) :
    ∀ (s : Main.State), s.lastValidDistance = 9999 → (∀ e ∈ errs, erroneous e) →
      ∀ o ∈ (Main.filterRun errs s).1, o = 9999 := by
  induction errs with
  | nil => intro s _ _ o ho; simp [Main.filterRun] at ho
  | cons e rest ih =>
    intro s hv herr o ho
    obtain ⟨t, raw⟩ := e
    obtain ⟨h1, h2⟩ := Main.readDistance_far t raw s (herr _ (List.mem_cons_self _ _)) hv
    simp only [Main.filterRun, List.mem_cons] at ho
    rcases ho with ho | ho
    · rw [ho, h1]
    · exact ih _ h2 (fun x hx => herr x (List.mem_cons_of_mem _ hx)) o ho

theorem Simple.filterRun_far_simple (errs : List (Bool × Nat)) :
    ∀ (s : Simple.State), s.lastValidDistance = 9999 → (∀ e ∈ errs, erroneous e) →
      ∀ o ∈ (Simple.filterRun errs s).1, o = 9999 := by
  induction errs with
  | nil => intro s _ _ o ho; simp [Simple.filterRun] at ho
  | cons e rest ih =>
    intro s hv herr o ho
    obtain ⟨t, raw⟩ := e
    obtain ⟨h1, h2⟩ := Simple.readDistance_far_simple t raw s (herr _ (List.mem_cons_self _ _)) hv
    simp only [Simple.filterRun, List.mem_cons] at ho
    rcases ho with ho | ho
    · rw [ho, h1]
    · exact ih _ h2 (fun x hx => herr x (List.mem_cons_of_mem _ hx)) o ho

theorem Main.filterRun_escalates (errs : List (Bool × Nat)) :
    ∀ (s : Main.State) (k : Nat), s.err = (k : Int) → k ≤ 10 → (∀ e ∈ errs, erroneous e) →
      ∀ o ∈ (Main.filterRun errs s).1.drop (10 - k), o = 9999 := by
  induction errs with
  | nil => intro s k _ _ _ o ho; simp [Main.filterRun] at ho
  | cons e rest ih =>
    intro s k hk hk10 herr o ho
    obtain ⟨t, raw⟩ := e
    have he : t = true ∨ raw > 8000 := herr (t, raw) (List.mem_cons_self _ _)
    have hrest : ∀ x ∈ rest, erroneous x := fun x hx => herr x (List.mem_cons_of_mem _ hx)
    by_cases h10 : k = 10
    · subst h10
      have hstep : (Main.readDistance t raw s).1 = 9999 ∧
          (Main.readDistance t raw s).2.lastValidDistance = 9999 := by
        unfold Main.readDistance
        rw [hk, wrapInt_succ_small 10 (by omega)]
        simp only [he, if_true]
        exact ⟨rfl, rfl⟩
      simp only [Main.filterRun, Nat.sub_self, List.drop_zero, List.mem_cons] at ho
      rcases ho with ho | ho
      · rw [ho, hstep.1]
      · exact Main.filterRun_far rest _ hstep.2 hrest o ho
    · have hstep : Main.readDistance t raw s =
          (s.lastValidDistance, { s with err := ((k + 1 : Nat) : Int) }) := by
        unfold Main.readDistance
        rw [hk, wrapInt_succ_small k (by omega)]
        have hn : ¬ ((k : Int) + 1 > 10) := by omega
        simp only [he, if_true, hn, if_false]
        push_cast
        rfl
      have hsub : 10 - k = (10 - (k + 1)) + 1 := by omega
      simp only [Main.filterRun, hstep] at ho
      rw [hsub, List.drop_succ_cons] at ho
      exact ih _ (k + 1) rfl (by omega) hrest o ho

theorem Simple.filterRun_escalates_simple (errs : List (Bool × Nat)) :
    ∀ (s : Simple.State) (k : Nat), s.errorCounter = (k : Int) → k ≤ 10 →
      (∀ e ∈ errs, erroneous e) →
      ∀ o ∈ (Simple.filterRun errs s).1.drop (10 - k), o = 9999 := by
  induction errs with
  | nil => intro s k _ _ _ o ho; simp [Simple.filterRun] at ho
  | cons e rest ih =>
    intro s k hk hk10 herr o ho
    obtain ⟨t, raw⟩ := e
    have he : t = true ∨ raw > 8000 := herr (t, raw) (List.mem_cons_self _ _)
    have hrest : ∀ x ∈ rest, erroneous x := fun x hx => herr x (List.mem_cons_of_mem _ hx)
    by_cases h10 : k = 10
    · subst h10
      have hstep : (Simple.readDistance t raw s).1 = 9999 ∧
          (Simple.readDistance t raw s).2.lastValidDistance = 9999 := by
        unfold Simple.readDistance
        rw [hk, wrapInt_succ_small 10 (by omega)]
        simp only [he, if_true]
        exact ⟨rfl, rfl⟩
      simp only [Simple.filterRun, Nat.sub_self, List.drop_zero, List.mem_cons] at ho
      rcases ho with ho | ho
      · rw [ho, hstep.1]
      · exact Simple.filterRun_far_simple rest _ hstep.2 hrest o ho
    · have hstep : Simple.readDistance t raw s =
          (s.lastValidDistance, { s with errorCounter := ((k + 1 : Nat) : Int) }) := by
        unfold Simple.readDistance
        rw [hk, wrapInt_succ_small k (by omega)]
        have hn : ¬ ((k : Int) + 1 > 10) := by omega
        simp only [he, if_true, hn, if_false]
        push_cast
        rfl
      have hsub : 10 - k = (10 - (k + 1)) + 1 := by omega
      simp only [Simple.filterRun, hstep] at ho
      rw [hsub, List.drop_succ_cons] at ho
      exact ih _ (k + 1) rfl (by omega) hrest o ho

/-- C6. In `main.cpp` and in `main_simple.cpp` one step of the distance filter equals the
filter of the specification (`specFilter`): the output is its value, the new
`lastValidDistance` is its value and the new error counter is its counter. Consequently,
in a run of erroneous samples that starts with the counter at 0, every output from the
11th sample on is 9999. -/
theorem filter_step_refines_spec :
    (∀ (t : Bool) (raw : Nat) (s : Main.State),
      (Main.readDistance t raw s).1 = (specFilter t raw
        { valueMm := s.lastValidDistance, consecutiveErrors := s.err }).valueMm ∧
      (Main.readDistance t raw s).2 = { s with
        err := (specFilter t raw
          { valueMm := s.lastValidDistance, consecutiveErrors := s.err }).consecutiveErrors
        lastValidDistance := (specFilter t raw
          { valueMm := s.lastValidDistance, consecutiveErrors := s.err }).valueMm }) ∧
    (∀ (t : Bool) (raw : Nat) (s : Simple.State),
      (Simple.readDistance t raw s).1 = (specFilter t raw
        { valueMm := s.lastValidDistance, consecutiveErrors := s.errorCounter }).valueMm ∧
      (Simple.readDistance t raw s).2 = { s with
        errorCounter := (specFilter t raw
          { valueMm := s.lastValidDistance,
            consecutiveErrors := s.errorCounter }).consecutiveErrors
        lastValidDistance := (specFilter t raw
          { valueMm := s.lastValidDistance,
            consecutiveErrors := s.errorCounter }).valueMm }) ∧
    (∀ (errs : List (Bool × Nat)) (s : Main.State), s.err = 0 →
      (∀ e ∈ errs, erroneous e) → ∀ o ∈ (Main.filterRun errs s).1.drop 10, o = 9999) ∧
    (∀ (errs : List (Bool × Nat)) (s : Simple.State), s.errorCounter = 0 →
      (∀ e ∈ errs, erroneous e) → ∀ o ∈ (Simple.filterRun errs s).1.drop 10, o = 9999) := by
  refine ⟨?_, ?_, ?_, ?_⟩
  · intro t raw s
    rw [Main.readDistance_eq_spec]
    exact ⟨rfl, rfl⟩
  · intro t raw s
    rw [Simple.readDistance_eq_spec_simple]
    exact ⟨rfl, rfl⟩
  · intro errs s h0 herr
    exact Main.filterRun_escalates errs s 0 (by simpa using h0) (by omega) herr
  · intro errs s h0 herr
    exact Simple.filterRun_escalates_simple errs s 0 (by simpa using h0) (by omega) herr

namespace Main

/-! ## Trigger state machine and playback -/

theorem NOTES_succ_ne (k : Nat) (hk : k < 6) : NOTES.getD (k + 1) "" ≠ NOTES.getD k "" := by
  interval_cases k <;> decide

theorem noteIndex_band (cfg : Config) (d : Int) (k : Nat) (hk : k < 6)
    (hsp : 0 < cfg.config_note_spacing_mm) (ht : isInt cfg.config_trigger_mm) (hd0 : 0 ≤ d)
    (hlo : ((k : Int) + 1) * cfg.config_note_spacing_mm ≤ cfg.config_trigger_mm - d)
    (hhi : k + 1 < 6 →
      cfg.config_trigger_mm - d < ((k : Int) + 2) * cfg.config_note_spacing_mm) :
    noteIndex cfg d = Except.ok ((k : Int) + 1) := by
  have hpos : 0 < ((k : Int) + 1) * cfg.config_note_spacing_mm :=
    Int.mul_pos (by omega) hsp
  rw [noteIndex_eq cfg d hsp ht hd0 (by omega)]
  congr 1
  have hge : (k : Int) + 1 ≤ (cfg.config_trigger_mm - d) / cfg.config_note_spacing_mm :=
    (Int.le_ediv_iff_mul_le hsp).2 hlo
  by_cases h5 : k + 1 < 6
  · have hlt : (cfg.config_trigger_mm - d) / cfg.config_note_spacing_mm < (k : Int) + 2 :=
      (Int.ediv_lt_iff_lt_mul hsp).2 (hhi h5)
    omega
  · omega

/-- C7. Multi-tone mode, any loop setting: while Active with last played note `NOTES[k]`
(`k < 6`), whatever `hasPlayedOnce` and the decoder are (in particular `hasPlayedOnce = true`
and nothing running, the note having finished), a sensor step whose filtered distance lies
in band `k+1` completes, leaves `hasPlayedOnce` false, calls `playTone(NOTES[k+1])` and
records `NOTES[k+1]` as the last played note; if that note's sample exists a fresh source
and decoder on its file are begun and running, and if it does not, decoder and source are
left as they were. -/
theorem note_change_reenables_trigger (cfg : Config) (fs : String → Bool) (d : Int)
    (s : State) (k : Nat) (hk : k < 6) (hm : cfg.config_multitone = true)
    (hsp : 0 < cfg.config_note_spacing_mm) (ht : isInt cfg.config_trigger_mm) (hd0 : 0 ≤ d)
    (hlo : ((k : Int) + 1) * cfg.config_note_spacing_mm ≤ cfg.config_trigger_mm - d)
    (hhi : k + 1 < 6 →
      cfg.config_trigger_mm - d < ((k : Int) + 2) * cfg.config_note_spacing_mm)
    (hact : s.isActive = true) (hlast : s.lastPlayedMultiNote = NOTES.getD k "") :
    ∃ s1, sensorLogic cfg fs d s = Except.ok s1 ∧
      s1.hasPlayedOnce = false ∧ s1.isActive = true ∧
      s1.lastPlayedMultiNote = NOTES.getD (k + 1) "" ∧
      (fs (filename (NOTES.getD (k + 1) "")) = true →
        s1.wav = some { running := true } ∧
        s1.file = some (filename (NOTES.getD (k + 1) "")) ∧
        s1.trace = Event.wavBegin (filename (NOTES.getD (k + 1) "")) s.out ::
          Event.playTone (NOTES.getD (k + 1) "") :: s.trace) ∧
      (fs (filename (NOTES.getD (k + 1) "")) = false →
        s1.wav = s.wav ∧ s1.file = s.file ∧
        s1.trace = Event.playTone (NOTES.getD (k + 1) "") :: s.trace) := by
  have hpos : 0 < ((k : Int) + 1) * cfg.config_note_spacing_mm :=
    Int.mul_pos (by omega) hsp
  have hd : d < cfg.config_trigger_mm := by omega
  have hidx := noteIndex_band cfg d k hk hsp ht hd0 hlo hhi
  have htn : targetNote cfg d = Except.ok (NOTES.getD (k + 1) "") := by
    unfold targetNote
    simp only [hm, if_true, hidx]
    unfold readNOTES NUM_NOTES
    have hr : 0 ≤ (k : Int) + 1 ∧ (k : Int) + 1 < 7 := by omega
    have hn : ((k : Int) + 1).toNat = k + 1 := by omega
    simp only [hr, and_self, if_true, hn]
  have hne := NOTES_succ_ne k hk
  generalize NOTES.getD (k + 1) "" = a at htn hne ⊢
  have hne2 : ¬ a = s.lastPlayedMultiNote := by rw [hlast]; exact hne
  have hne3 : ¬ s.lastPlayedMultiNote = a := fun h => hne2 h.symm
  have hact2 : ¬ s.isActive = false := by simp [hact]
  unfold sensorLogic
  simp only [hd, if_true, htn, hact2, if_false, hm, true_and, ne_eq, hne2, not_false_eq_true]
  refine ⟨_, rfl, ?_⟩
  unfold playTone
  simp only [hm, if_true]
  cases hf : fs (filename a)
  · simp [hact, hne2, hne3]
  · simp [hact, hne2, hne3, wavBegin, hf]

/-- Witness of C7: trigger 800, spacing 50, note C finished, hand moves to 740 mm (band 1,
note D) while only the sample of C is stored. -/
theorem note_change_reenables_trigger_witness :
    ∃ s1, sensorLogic multiToneConfig fsOnlyC 740
        { activeState with hasPlayedOnce := true, lastPlayedMultiNote := "C" } =
        Except.ok s1 ∧
      s1.hasPlayedOnce = false ∧ s1.isActive = true ∧ s1.lastPlayedMultiNote = "D" :=
  let ⟨s1, h1, h2, h3, h4, _⟩ := note_change_reenables_trigger multiToneConfig fsOnlyC 740
    { activeState with hasPlayedOnce := true, lastPlayedMultiNote := "C" } 0
    (by decide) (by decide) (by decide) (by decide) (by decide) (by decide) (by decide)
    (by decide) (by decide)
  ⟨s1, h1, h2, h3, h4⟩


theorem sensorLogic_band (cfg : Config) (fs : String → Bool) (d : Int) (b : State)
    (hlo : cfg.config_trigger_mm ≤ d)
    (hhi : d ≤ wrapInt (cfg.config_trigger_mm + cfg.config_hysteresis_mm)) :
    sensorLogic cfg fs d b = Except.ok b := by
  unfold sensorLogic
  have h1 : ¬ d < cfg.config_trigger_mm := by omega
  have h2 : ¬ (b.isActive = true ∧
      d > wrapInt (cfg.config_trigger_mm + cfg.config_hysteresis_mm)) := by
    intro h; omega
  simp only [h1, h2, if_false]

/-- C9. Scenario A (trigger 800, hysteresis 100, single-tone, active note C with its sample
stored, loop off, from the state after `setup()`): over the filtered distances 1000, 750,
750, 900, 1200, fed to five sensor steps and likewise read by five iterations of `loop()`:
nothing happens at 1000; at the first 750 presence becomes Active and one playback of
`/C.wav` is begun; the second 750 calls `playTone` but begins nothing; 900 changes nothing;
1200 calls `stopTone`, halts the decoder and returns to Idle. One start and one stop. -/
theorem scenario_A_trace :
    observe (sensorSteps defaultConfig fsOnlyC [1000] initState) =
        Except.ok (false, false, []) ∧
      observe (sensorSteps defaultConfig fsOnlyC [1000, 750] initState) =
        Except.ok (true, true, [Event.wavBegin "/C.wav" (some 0), Event.playTone "C"]) ∧
      observe (sensorSteps defaultConfig fsOnlyC [1000, 750, 750] initState) =
        Except.ok (true, true,
          [Event.playTone "C", Event.wavBegin "/C.wav" (some 0), Event.playTone "C"]) ∧
      observe (sensorSteps defaultConfig fsOnlyC [1000, 750, 750, 900] initState) =
        Except.ok (true, true,
          [Event.playTone "C", Event.wavBegin "/C.wav" (some 0), Event.playTone "C"]) ∧
      observe (sensorSteps defaultConfig fsOnlyC [1000, 750, 750, 900, 1200] initState) =
        Except.ok (false, false,
          [Event.wavStop, Event.stopTone, Event.playTone "C",
            Event.wavBegin "/C.wav" (some 0), Event.playTone "C"]) ∧
      (∀ n, n ≤ 5 →
        observe (runLoop defaultConfig (scenarioA.take n) initState) =
          observe (sensorSteps defaultConfig fsOnlyC
            ([1000, 750, 750, 900, 1200].take n) initState)) ∧
      Except.map (fun s => (starts s.trace, stops s.trace))
        (runLoop defaultConfig scenarioA initState) = Except.ok (1, 1) := by
  refine ⟨by decide, by decide, by decide, by decide, by decide, ?_, by decide⟩
  intro n hn
  interval_cases n <;> decide

/-- C10 (amended). If the sample of note `n` does not exist, `playTone(n)` from a state with
no decoder and no source (in particular the empty session, with no last played note)
constructs no decoder and no source and begins nothing; in single-tone mode the state is
unchanged, in multi-tone mode the only change is that `lastPlayedMultiNote` becomes `n`
(the ghost trace records the call). -/
theorem playTone_missing_file (cfg : Config) (fs : String → Bool) (n : String) (s : State)
    (hw : s.wav = none) (hf : s.file = none) (hmiss : fs (filename n) = false) :
    (playTone cfg fs n s).wav = none ∧ (playTone cfg fs n s).file = none ∧
      isRunning (playTone cfg fs n s).wav = false ∧
      starts (playTone cfg fs n s).trace = starts s.trace ∧
      (cfg.config_multitone = false →
        playTone cfg fs n s = { s with trace := Event.playTone n :: s.trace }) ∧
      (cfg.config_multitone = true →
        playTone cfg fs n s =
          { s with lastPlayedMultiNote := n, trace := Event.playTone n :: s.trace }) := by
  unfold playTone
  cases hm : cfg.config_multitone <;> simp [hw, hf, hmiss, isRunning, starts]

/-- Witness of C10: note F, whose sample is not stored, in multi-tone mode. -/
theorem playTone_missing_file_witness :
    (playTone multiToneConfig fsOnlyC "F" initState).wav = none ∧
      (playTone multiToneConfig fsOnlyC "F" initState).file = none ∧
      isRunning (playTone multiToneConfig fsOnlyC "F" initState).wav = false :=
  let h := playTone_missing_file multiToneConfig fsOnlyC "F" initState (by decide)
    (by decide) (by decide)
  ⟨h.1, h.2.1, h.2.2.1⟩

/-- Counterexample to C10 as stated: in multi-tone mode `playTone("F")` with no sample of
F, from the state after `setup()` (no decoder, no source, no last played note), records F
as the last played note. -/
theorem playTone_missing_file_counterexample :
    multiToneConfig.config_multitone = true ∧ fsOnlyC (filename "F") = false ∧
      initState.wav = none ∧ initState.file = none ∧ initState.lastPlayedMultiNote = "" ∧
      (playTone multiToneConfig fsOnlyC "F" initState).lastPlayedMultiNote = "F" ∧
      (playTone multiToneConfig fsOnlyC "F" initState).lastPlayedMultiNote ≠
        initState.lastPlayedMultiNote := by
  decide


/-! ## Configuration faults, anti-restart guard and `stopTone` -/

/-- C11. The note selection of `main.cpp` at the failing configurations: with multi-tone on,
trigger 800 and distance 750, a note spacing of 0 makes `diff / config_note_spacing_mm` a
division by zero, and a note spacing of -50 gives `noteIndex = -1`, outside `NOTES`; the
sensor step and the iteration of `loop()` end in the same fault. A negative spacing that
exceeds the depth (distance 790) still selects `NOTES[0]`. -/
theorem note_selection_faults :
    noteIndex zeroSpacingConfig 750 = Except.error Fault.divideByZero ∧
      targetNote zeroSpacingConfig 750 = Except.error Fault.divideByZero ∧
      sensorLogic zeroSpacingConfig fsOnlyC 750 initState =
        Except.error Fault.divideByZero ∧
      runLoop zeroSpacingConfig [sensorTick fsOnlyC false 100 750] initState =
        Except.error Fault.divideByZero ∧
      noteIndex negativeSpacingConfig 750 = Except.ok (-1) ∧
      targetNote negativeSpacingConfig 750 = Except.error Fault.indexOutOfRange ∧
      sensorLogic negativeSpacingConfig fsOnlyC 750 initState =
        Except.error Fault.indexOutOfRange ∧
      runLoop negativeSpacingConfig [sensorTick fsOnlyC false 100 750] initState =
        Except.error Fault.indexOutOfRange ∧
      targetNote negativeSpacingConfig 790 = Except.ok "C" := by
  decide

/-- C12. Anti-restart guard: while a decoder is running, `playTone(n)` changes nothing but
the ghost trace (decoder, source, sink, last played note, `hasPlayedOnce`, presence, filter
and timing globals are as before, and nothing is begun) when multi-tone is off and `n` is
`active_note`, or multi-tone is on and `n` is `lastPlayedMultiNote`. -/
theorem playTone_guard_noop (cfg : Config) (fs : String → Bool) (n : String) (s : State)
    (hrun : isRunning s.wav = true)
    (hn : (cfg.config_multitone = false ∧ n = cfg.active_note) ∨
      (cfg.config_multitone = true ∧ n = s.lastPlayedMultiNote)) :
    playTone cfg fs n s = { s with trace := Event.playTone n :: s.trace } ∧
      starts (playTone cfg fs n s).trace = starts s.trace := by
  have hg : isRunning s.wav = true ∧
      ((cfg.active_note = n ∧ cfg.config_multitone = false) ∨
        (cfg.config_multitone = true ∧ s.lastPlayedMultiNote = n)) := by
    refine ⟨hrun, ?_⟩
    rcases hn with ⟨h1, h2⟩ | ⟨h1, h2⟩
    · exact Or.inl ⟨h2.symm, h1⟩
    · exact Or.inr ⟨h1, h2.symm⟩
  have he : playTone cfg fs n s = { s with trace := Event.playTone n :: s.trace } := by
    unfold playTone
    simp only [hg, and_self, if_true]
  rw [he]
  exact ⟨rfl, rfl⟩

/-- Witness of C12: note C is playing in single-tone mode and `playTone("C")` is called. -/
theorem playTone_guard_noop_witness :
    playTone defaultConfig fsOnlyC "C" playingC =
        { playingC with trace := Event.playTone "C" :: playingC.trace } ∧
      starts (playTone defaultConfig fsOnlyC "C" playingC).trace = starts playingC.trace :=
  playTone_guard_noop defaultConfig fsOnlyC "C" playingC (by decide) (by decide)

/-- C13. After `stopTone()` there is no decoder and no source; `lastPlayedMultiNote` is
empty if presence was Idle at the call and unchanged if it was Active; presence,
`hasPlayedOnce`, the sink and the filter and timing globals are unchanged; the ghost trace
gains the call, and a halt of the decoder exactly when it was running. -/
theorem stopTone_effect (s : State) :
    stopTone s =
      { s with
        wav := none
        file := none
        lastPlayedMultiNote := if s.isActive = false then "" else s.lastPlayedMultiNote
        trace := if isRunning s.wav = true then Event.wavStop :: Event.stopTone :: s.trace
          else Event.stopTone :: s.trace } ∧
      (stopTone s).wav = none ∧ (stopTone s).file = none ∧
      isRunning (stopTone s).wav = false ∧
      (stopTone s).isActive = s.isActive ∧
      (stopTone s).hasPlayedOnce = s.hasPlayedOnce ∧
      (s.isActive = false → (stopTone s).lastPlayedMultiNote = "") ∧
      (s.isActive = true → (stopTone s).lastPlayedMultiNote = s.lastPlayedMultiNote) := by
  unfold stopTone
  cases ha : s.isActive <;> cases hr : isRunning s.wav <;> simp [ha, hr, isRunning_none]

end Main

/-! ## Retry of a failed start, and the sink -/

theorem Simple.stopTone_counts (s : Simple.State) :
    plays (Simple.stopTone s).trace = plays s.trace ∧
      starts (Simple.stopTone s).trace = starts s.trace ∧
      (Simple.stopTone s).isActive = s.isActive ∧
      (Simple.stopTone s).out = s.out := by
  unfold Simple.stopTone
  cases hr : isRunning s.wav <;> simp [hr, plays, starts]

theorem Simple.audioEngine_counts (fin : Bool) (s : Simple.State) :
    plays (Simple.audioEngine fin s).trace = plays s.trace ∧
      starts (Simple.audioEngine fin s).trace = starts s.trace ∧
      (Simple.audioEngine fin s).isActive = s.isActive ∧
      (Simple.audioEngine fin s).lastSensorCheck = s.lastSensorCheck ∧
      (Simple.audioEngine fin s).out = s.out := by
  unfold Simple.audioEngine
  split
  · simp
  · split
    · simp only
      split
      · simp [Simple.stopTone_counts]
        unfold Simple.stopTone
        simp only
        split <;> rfl
      · simp
    · simp

theorem Simple.readDistance_frame_simple (t : Bool) (raw : Nat) (s : Simple.State) :
    (Simple.readDistance t raw s).2.isActive = s.isActive ∧
      (Simple.readDistance t raw s).2.wav = s.wav ∧
      (Simple.readDistance t raw s).2.file = s.file ∧
      (Simple.readDistance t raw s).2.out = s.out ∧
      (Simple.readDistance t raw s).2.lastSensorCheck = s.lastSensorCheck ∧
      (Simple.readDistance t raw s).2.lastDebugDistance = s.lastDebugDistance ∧
      (Simple.readDistance t raw s).2.trace = s.trace := by
  unfold Simple.readDistance
  split
  · simp only
    split <;> simp
  · simp

theorem Simple.debugOutput_frame (d : Int) (s : Simple.State) :
    (Simple.debugOutput d s).isActive = s.isActive ∧
      (Simple.debugOutput d s).wav = s.wav ∧
      (Simple.debugOutput d s).file = s.file ∧
      (Simple.debugOutput d s).out = s.out ∧
      (Simple.debugOutput d s).lastSensorCheck = s.lastSensorCheck ∧
      (Simple.debugOutput d s).lastValidDistance = s.lastValidDistance ∧
      (Simple.debugOutput d s).errorCounter = s.errorCounter ∧
      (Simple.debugOutput d s).trace = s.trace := by
  unfold Simple.debugOutput
  split <;> simp

theorem Simple.sensorLogic_active_counts (cs : Simple.Config) (fs : String → Bool) (d : Int)
    (s : Simple.State) (ha : s.isActive = true) :
    plays (Simple.sensorLogic cs fs d s).trace = plays s.trace ∧
      starts (Simple.sensorLogic cs fs d s).trace = starts s.trace := by
  unfold Simple.sensorLogic
  have h1 : ¬ (s.isActive = false ∧ d < cs.config_trigger_mm) := by simp [ha]
  simp only [h1, if_false]
  split
  · simp [Simple.stopTone_counts]
  · exact ⟨rfl, rfl⟩

theorem Simple.loop_active_counts (cs : Simple.Config) (inp : Input) (s : Simple.State)
    (ha : s.isActive = true) :
    plays (Simple.loop cs inp s).trace = plays s.trace ∧
      starts (Simple.loop cs inp s).trace = starts s.trace := by
  obtain ⟨a1, a2, a3, _, _⟩ := Simple.audioEngine_counts inp.finished s
  unfold Simple.loop
  simp only
  split
  · obtain ⟨r1, _, _, _, _, _, r7⟩ := Simple.readDistance_frame_simple inp.timeoutOccurred
      inp.rawDist { Simple.audioEngine inp.finished s with lastSensorCheck := inp.now }
    generalize (Simple.readDistance inp.timeoutOccurred inp.rawDist
      { Simple.audioEngine inp.finished s with lastSensorCheck := inp.now }) = r at r1 r7 ⊢
    obtain ⟨g1, _, _, _, _, _, _, g8⟩ := Simple.debugOutput_frame r.1 r.2
    have hact : (Simple.debugOutput r.1 r.2).isActive = true := by
      rw [g1, r1]; simpa [a3] using ha
    obtain ⟨c1, c2⟩ := Simple.sensorLogic_active_counts cs inp.fsExists r.1 _ hact
    rw [c1, c2, g8, r7]
    exact ⟨a1, a2⟩
  · exact ⟨a1, a2⟩

theorem Simple.runLoop_active_counts (cs : Simple.Config) (inps : List Input) :
    ∀ s : Simple.State, s.isActive = true → Simple.staysActive cs inps s = true →
      plays (Simple.runLoop cs inps s).trace = plays s.trace ∧
        starts (Simple.runLoop cs inps s).trace = starts s.trace := by
  induction inps with
  | nil => intro s _ _; exact ⟨rfl, rfl⟩
  | cons inp rest ih =>
    intro s ha hs
    simp only [Simple.staysActive, Bool.and_eq_true] at hs
    obtain ⟨l1, l2⟩ := Simple.loop_active_counts cs inp s ha
    obtain ⟨i1, i2⟩ := ih _ hs.1 hs.2
    simp only [Simple.runLoop]
    exact ⟨i1.trans l1, i2.trans l2⟩

theorem Main.sensorLogic_retry (cfg : Main.Config) (fs : String → Bool) (d : Int)
    (s : Main.State) (t : String) (hact : s.isActive = true)
    (hpo : s.hasPlayedOnce = false) (hrun : isRunning s.wav = false)
    (hd : d < cfg.config_trigger_mm) (ht : Main.targetNote cfg d = Except.ok t) :
    ∃ s1, Main.sensorLogic cfg fs d s = Except.ok s1 ∧
      plays s1.trace = plays s.trace + 1 ∧
      s1.hasPlayedOnce = false ∧ s1.isActive = true ∧
      (fs (Main.filename t) = true →
        isRunning s1.wav = true ∧ s1.file = some (Main.filename t) ∧
        starts s1.trace = starts s.trace + 1) ∧
      (fs (Main.filename t) = false →
        s1.wav = s.wav ∧ s1.file = s.file ∧ starts s1.trace = starts s.trace) := by
  unfold Main.sensorLogic
  simp only [hd, if_true, ht]
  refine ⟨_, rfl, ?_⟩
  unfold Main.playTone
  cases hm : cfg.config_multitone <;> cases hf : fs (Main.filename t) <;>
    by_cases hl : t = s.lastPlayedMultiNote <;>
    first
    | (subst hl
       simp [hact, hpo, hrun, hf, plays, starts, wavBegin, isRunning_some])
    | simp [hact, hpo, hrun, hf, hl, plays, starts, wavBegin, isRunning_some]


/-- C14 (amended). In `main_simple.cpp` no start is attempted while presence stays Active:
over every run of `loop()` from an Active state in which presence is Active after each
iteration, `playTone` is not called and nothing is begun. In `main.cpp`, from an Active
state in which the start attempt produced no playback (`hasPlayedOnce` false, nothing
running), a later sensor step with a distance below the trigger calls `playTone` for its
target note again, and begins that note's playback if and only if its sample exists by
then. -/
theorem failed_start_retry (cfg : Main.Config) (cs : Simple.Config) (fs : String → Bool)
    (d : Int) (s : Main.State) (t : String) (u : Simple.State) (inps : List Input)
    (hact : s.isActive = true) (hpo : s.hasPlayedOnce = false)
    (hrun : isRunning s.wav = false) (hd : d < cfg.config_trigger_mm)
    (ht : Main.targetNote cfg d = Except.ok t) (hu : u.isActive = true)
    (hstay : Simple.staysActive cs inps u = true) :
    (plays (Simple.runLoop cs inps u).trace = plays u.trace ∧
      starts (Simple.runLoop cs inps u).trace = starts u.trace) ∧
    (∃ s1, Main.sensorLogic cfg fs d s = Except.ok s1 ∧
      plays s1.trace = plays s.trace + 1 ∧
      s1.hasPlayedOnce = false ∧ s1.isActive = true ∧
      (fs (Main.filename t) = true →
        isRunning s1.wav = true ∧ s1.file = some (Main.filename t) ∧
        starts s1.trace = starts s.trace + 1) ∧
      (fs (Main.filename t) = false →
        s1.wav = s.wav ∧ s1.file = s.file ∧ starts s1.trace = starts s.trace)) :=
  ⟨Simple.runLoop_active_counts cs inps u hu hstay,
    Main.sensorLogic_retry cfg fs d s t hact hpo hrun hd ht⟩

/-- Witness of C14: `main_simple.cpp` stays Active over two readings of 750 mm with no
sample stored; `main.cpp` is Active with nothing running and reads 750 mm once the sample of
C is stored. -/
theorem failed_start_retry_witness :
    (plays (Simple.runLoop Simple.defaultConfig
        [Main.sensorTick fsNone false 100 750, Main.sensorTick fsNone false 200 750]
        Simple.activeState).trace = plays Simple.activeState.trace ∧
      starts (Simple.runLoop Simple.defaultConfig
        [Main.sensorTick fsNone false 100 750, Main.sensorTick fsNone false 200 750]
        Simple.activeState).trace = starts Simple.activeState.trace) ∧
    (∃ s1, Main.sensorLogic Main.defaultConfig Main.fsOnlyC 750 Main.activeState =
        Except.ok s1 ∧
      plays s1.trace = plays Main.activeState.trace + 1 ∧
      s1.hasPlayedOnce = false ∧ s1.isActive = true ∧
      (Main.fsOnlyC (Main.filename "C") = true →
        isRunning s1.wav = true ∧ s1.file = some (Main.filename "C") ∧
        starts s1.trace = starts Main.activeState.trace + 1) ∧
      (Main.fsOnlyC (Main.filename "C") = false →
        s1.wav = Main.activeState.wav ∧ s1.file = Main.activeState.file ∧
        starts s1.trace = starts Main.activeState.trace)) :=
  failed_start_retry Main.defaultConfig Simple.defaultConfig Main.fsOnlyC 750
    Main.activeState "C" Simple.activeState
    [Main.sensorTick fsNone false 100 750, Main.sensorTick fsNone false 200 750]
    (by decide) (by decide) (by decide) (by decide) (by decide) (by decide) (by decide)

/-- Counterexample to C14 as stated, in `main.cpp` (single-tone, loop off): the entry step
at 750 mm finds no sample of C, calls `playTone` and begins nothing; the next sensor step
of the same episode, the sample now stored, calls `playTone("C")` again and begins the
playback. -/
theorem failed_start_retry_counterexample :
    Except.map (fun s => (s.isActive, isRunning s.wav, plays s.trace, starts s.trace))
        (Main.runLoop Main.defaultConfig [Main.sensorTick fsNone false 100 750]
          Main.initState) = Except.ok (true, false, 1, 0) ∧
      Except.map (fun s => (s.isActive, isRunning s.wav, plays s.trace, starts s.trace))
        (Main.runLoop Main.defaultConfig
          [Main.sensorTick fsNone false 100 750, Main.sensorTick Main.fsOnlyC false 200 750]
          Main.initState) = Except.ok (true, true, 2, 1) ∧
      Except.map (fun s => s.trace)
        (Main.runLoop Main.defaultConfig
          [Main.sensorTick fsNone false 100 750, Main.sensorTick Main.fsOnlyC false 200 750]
          Main.initState) =
        Except.ok [Event.wavBegin "/C.wav" (some 0), Event.playTone "C",
          Event.playTone "C"] := by
  decide

theorem beginsOn_cons (o : Option Nat) (e : Event) (tr : List Event)
    (he : ∀ f o1, e = Event.wavBegin f o1 → o1 = o) (h : beginsOn o tr) :
    beginsOn o (e :: tr) := by
  intro f o1 hmem
  rcases List.mem_cons.1 hmem with h1 | h1
  · exact he f o1 h1.symm
  · exact h f o1 h1

theorem Main.playTone_sink (cfg : Main.Config) (fs : String → Bool) (n : String)
    (s : Main.State) (h : beginsOn s.out s.trace) :
    (Main.playTone cfg fs n s).out = s.out ∧
      beginsOn s.out (Main.playTone cfg fs n s).trace := by
  have hp : beginsOn s.out (Event.playTone n :: s.trace) :=
    beginsOn_cons _ _ _ (fun _ _ he => by cases he) h
  have hb : beginsOn s.out
      (Event.wavBegin (Main.filename n) s.out :: Event.playTone n :: s.trace) :=
    beginsOn_cons _ _ _ (fun _ _ he => by cases he; rfl) hp
  unfold Main.playTone
  simp only
  split
  · exact ⟨rfl, hp⟩
  · split <;> split <;> first | exact ⟨rfl, hp⟩ | exact ⟨rfl, hb⟩

theorem Main.stopTone_sink (s : Main.State) (h : beginsOn s.out s.trace) :
    (Main.stopTone s).out = s.out ∧ beginsOn s.out (Main.stopTone s).trace := by
  have hp : beginsOn s.out (Event.stopTone :: s.trace) :=
    beginsOn_cons _ _ _ (fun _ _ he => by cases he) h
  have hb : beginsOn s.out (Event.wavStop :: Event.stopTone :: s.trace) :=
    beginsOn_cons _ _ _ (fun _ _ he => by cases he) hp
  unfold Main.stopTone
  simp only
  split <;> split <;> first | exact ⟨rfl, hp⟩ | exact ⟨rfl, hb⟩

theorem Simple.playTone_sink_simple (fs : String → Bool) (s : Simple.State)
    (h : beginsOn s.out s.trace) :
    (Simple.playTone fs s).out = s.out ∧ beginsOn s.out (Simple.playTone fs s).trace := by
  have hp : beginsOn s.out (Event.playTone "piano" :: s.trace) :=
    beginsOn_cons _ _ _ (fun _ _ he => by cases he) h
  have hb : beginsOn s.out
      (Event.wavBegin "/piano.wav" s.out :: Event.playTone "piano" :: s.trace) :=
    beginsOn_cons _ _ _ (fun _ _ he => by cases he; rfl) hp
  unfold Simple.playTone
  simp only
  split <;> first | exact ⟨rfl, hp⟩ | exact ⟨rfl, hb⟩

theorem Simple.stopTone_sink_simple (s : Simple.State) (h : beginsOn s.out s.trace) :
    (Simple.stopTone s).out = s.out ∧ beginsOn s.out (Simple.stopTone s).trace := by
  have hp : beginsOn s.out (Event.stopTone :: s.trace) :=
    beginsOn_cons _ _ _ (fun _ _ he => by cases he) h
  have hb : beginsOn s.out (Event.wavStop :: Event.stopTone :: s.trace) :=
    beginsOn_cons _ _ _ (fun _ _ he => by cases he) hp
  unfold Simple.stopTone
  simp only
  split <;> first | exact ⟨rfl, hp⟩ | exact ⟨rfl, hb⟩


theorem ite_cases {α : Type} (P : α → Prop) (c : Prop) [Decidable c] (a b : α)
    (ha : P a) (hb : P b) : P (if c then a else b) := by
  split
  · exact ha
  · exact hb

theorem Main.playTone_sinkKept (cfg : Main.Config) (fs : String → Bool) (n : String)
    (o : Option Nat) (s : Main.State) (h : Main.sinkKept o s) :
    Main.sinkKept o (Main.playTone cfg fs n s) := by
  obtain ⟨h1, h2⟩ := h
  subst h1
  exact Main.playTone_sink cfg fs n s h2

theorem Main.stopTone_sinkKept (o : Option Nat) (s : Main.State) (h : Main.sinkKept o s) :
    Main.sinkKept o (Main.stopTone s) := by
  obtain ⟨h1, h2⟩ := h
  subst h1
  exact Main.stopTone_sink s h2

theorem Main.audioEngine_sinkKept (cfg : Main.Config) (fs : String → Bool) (fin : Bool)
    (o : Option Nat) (s : Main.State) (h : Main.sinkKept o s) :
    Main.sinkKept o (Main.audioEngine cfg fs fin s) := by
  unfold Main.audioEngine
  split
  · exact h
  · split
    · simp only
      split
      · split
        · exact Main.playTone_sinkKept cfg fs _ o _ h
        · exact Main.stopTone_sinkKept o _ h
      · exact h
    · exact h

theorem Main.sensorLogic_sinkKept (cfg : Main.Config) (fs : String → Bool) (d : Int)
    (o : Option Nat) (s s1 : Main.State) (h : Main.sinkKept o s)
    (hs : Main.sensorLogic cfg fs d s = Except.ok s1) : Main.sinkKept o s1 := by
  unfold Main.sensorLogic at hs
  by_cases hd : d < cfg.config_trigger_mm
  · simp only [hd, if_true] at hs
    cases ht : Main.targetNote cfg d with
    | error e => rw [ht] at hs; cases hs
    | ok t =>
      rw [ht] at hs
      injection hs with hs
      subst hs
      have h1 : Main.sinkKept o
          (if s.isActive = false then { s with isActive := true, hasPlayedOnce := false }
            else s) := ite_cases _ _ _ _ h h
      have h2 : Main.sinkKept o
          (if cfg.config_multitone = true ∧ t ≠
              (if s.isActive = false then { s with isActive := true, hasPlayedOnce := false }
                else s).lastPlayedMultiNote then
            { (if s.isActive = false then { s with isActive := true, hasPlayedOnce := false }
                else s) with hasPlayedOnce := false }
          else (if s.isActive = false then { s with isActive := true, hasPlayedOnce := false }
            else s)) := ite_cases _ _ _ _ h1 h1
      exact ite_cases _ _ _ _ (Main.playTone_sinkKept cfg fs t o _ h2) h2
  · simp only [hd, if_false] at hs
    split at hs
    · injection hs with hs
      subst hs
      exact Main.stopTone_sinkKept o _ h
    · injection hs with hs
      subst hs
      exact h

theorem Main.loop_sinkKept (cfg : Main.Config) (inp : Input) (o : Option Nat)
    (s s1 : Main.State) (h : Main.sinkKept o s)
    (hs : Main.loop cfg inp s = Except.ok s1) : Main.sinkKept o s1 := by
  have ha := Main.audioEngine_sinkKept cfg inp.fsExists inp.finished o s h
  unfold Main.loop at hs
  simp only at hs
  split at hs
  · apply Main.sensorLogic_sinkKept cfg inp.fsExists _ o _ s1 _ hs
    obtain ⟨_, _, _, _, r5, _, _, r8⟩ := Main.readDistance_frame inp.timeoutOccurred
      inp.rawDist { Main.audioEngine cfg inp.fsExists inp.finished s with
        lastSensorCheck := inp.now }
    unfold Main.sinkKept
    rw [r5, r8]
    exact ha
  · injection hs with hs
    subst hs
    exact ha

theorem Main.runLoop_sinkKept (cfg : Main.Config) (inps : List Input) (o : Option Nat) :
    ∀ (s s1 : Main.State), Main.sinkKept o s → Main.runLoop cfg inps s = Except.ok s1 →
      Main.sinkKept o s1 := by
  induction inps with
  | nil =>
    intro s s1 h hs
    injection hs with hs
    subst hs
    exact h
  | cons inp rest ih =>
    intro s s1 h hs
    simp only [Main.runLoop] at hs
    split at hs
    · rename_i s2 h2
      exact ih s2 s1 (Main.loop_sinkKept cfg inp o s s2 h h2) hs
    · cases hs

theorem Simple.playTone_sinkKept_simple (fs : String → Bool) (o : Option Nat)
    (s : Simple.State) (h : Simple.sinkKept o s) :
    Simple.sinkKept o (Simple.playTone fs s) := by
  obtain ⟨h1, h2⟩ := h
  subst h1
  exact Simple.playTone_sink_simple fs s h2

theorem Simple.stopTone_sinkKept_simple (o : Option Nat) (s : Simple.State)
    (h : Simple.sinkKept o s) : Simple.sinkKept o (Simple.stopTone s) := by
  obtain ⟨h1, h2⟩ := h
  subst h1
  exact Simple.stopTone_sink_simple s h2

theorem Simple.audioEngine_sinkKept_simple (fin : Bool) (o : Option Nat) (s : Simple.State)
    (h : Simple.sinkKept o s) : Simple.sinkKept o (Simple.audioEngine fin s) := by
  unfold Simple.audioEngine
  split
  · exact h
  · split
    · simp only
      split
      · exact Simple.stopTone_sinkKept_simple o _ h
      · exact h
    · exact h

theorem Simple.loop_sinkKept_simple (cs : Simple.Config) (inp : Input) (o : Option Nat)
    (s : Simple.State) (h : Simple.sinkKept o s) :
    Simple.sinkKept o (Simple.loop cs inp s) := by
  have ha := Simple.audioEngine_sinkKept_simple inp.finished o s h
  unfold Simple.loop
  simp only
  split
  · obtain ⟨_, _, _, r4, _, _, r7⟩ := Simple.readDistance_frame_simple inp.timeoutOccurred
      inp.rawDist { Simple.audioEngine inp.finished s with lastSensorCheck := inp.now }
    generalize (Simple.readDistance inp.timeoutOccurred inp.rawDist
      { Simple.audioEngine inp.finished s with lastSensorCheck := inp.now }) = r at r4 r7 ⊢
    obtain ⟨_, _, _, g4, _, _, _, g8⟩ := Simple.debugOutput_frame r.1 r.2
    have hd : Simple.sinkKept o (Simple.debugOutput r.1 r.2) := by
      unfold Simple.sinkKept
      rw [g4, g8, r4, r7]
      exact ha
    unfold Simple.sensorLogic
    split
    · exact Simple.playTone_sinkKept_simple _ o _ hd
    · split
      · exact Simple.stopTone_sinkKept_simple o _ hd
      · exact hd
  · exact ha

theorem Simple.runLoop_sinkKept_simple (cs : Simple.Config) (inps : List Input)
    (o : Option Nat) :
    ∀ s : Simple.State, Simple.sinkKept o s → Simple.sinkKept o (Simple.runLoop cs inps s) := by
  induction inps with
  | nil => intro s h; exact h
  | cons inp rest ih =>
    intro s h
    simp only [Simple.runLoop]
    exact ih _ (Simple.loop_sinkKept_simple cs inp o s h)

/-- C15. Anti-pop, for `main.cpp` and `main_simple.cpp`: from a state whose sink pointer is
`out` and whose playbacks so far were all begun on it (in particular the state after
`setup()`), `playTone`, `stopTone`, an iteration of `loop()` and every run of iterations
leave `out` as it is, and every playback they begin is attached to that same sink; only
`wav` and `file` are replaced. For `main.cpp` a step or run is one that completes. -/
theorem sink_never_replaced (cfg : Main.Config) (cs : Simple.Config) (fs : String → Bool)
    (n : String) (inps : List Input) (s : Main.State) (u : Simple.State)
    (hs : beginsOn s.out s.trace) (hu : beginsOn u.out u.trace) :
    ((Main.playTone cfg fs n s).out = s.out ∧
        beginsOn s.out (Main.playTone cfg fs n s).trace) ∧
      ((Main.stopTone s).out = s.out ∧ beginsOn s.out (Main.stopTone s).trace) ∧
      (∀ inp s1, Main.loop cfg inp s = Except.ok s1 →
        s1.out = s.out ∧ beginsOn s.out s1.trace) ∧
      (∀ s1, Main.runLoop cfg inps s = Except.ok s1 →
        s1.out = s.out ∧ beginsOn s.out s1.trace) ∧
      ((Simple.playTone fs u).out = u.out ∧ beginsOn u.out (Simple.playTone fs u).trace) ∧
      ((Simple.stopTone u).out = u.out ∧ beginsOn u.out (Simple.stopTone u).trace) ∧
      (∀ inp, (Simple.loop cs inp u).out = u.out ∧
        beginsOn u.out (Simple.loop cs inp u).trace) ∧
      ((Simple.runLoop cs inps u).out = u.out ∧
        beginsOn u.out (Simple.runLoop cs inps u).trace) :=
  ⟨Main.playTone_sink cfg fs n s hs, Main.stopTone_sink s hs,
    fun inp s1 h => Main.loop_sinkKept cfg inp s.out s s1 ⟨rfl, hs⟩ h,
    fun s1 h => Main.runLoop_sinkKept cfg inps s.out s s1 ⟨rfl, hs⟩ h,
    Simple.playTone_sink_simple fs u hu, Simple.stopTone_sink_simple u hu,
    fun inp => Simple.loop_sinkKept_simple cs inp u.out u ⟨rfl, hu⟩,
    Simple.runLoop_sinkKept_simple cs inps u.out u ⟨rfl, hu⟩⟩


/-- Witness of C15: the states after `setup()`, whose traces are empty. -/
theorem sink_never_replaced_witness :
    (Main.playTone Main.defaultConfig Main.fsOnlyC "C" Main.initState).out =
        Main.initState.out ∧
      (Simple.runLoop Simple.defaultConfig [Main.sensorTick fsAll false 100 750]
        Simple.initState).out = Simple.initState.out :=
  let h := sink_never_replaced Main.defaultConfig Simple.defaultConfig Main.fsOnlyC "C"
    [Main.sensorTick fsAll false 100 750] Main.initState Simple.initState
    (by simp [beginsOn, Main.initState]) (by simp [beginsOn, Simple.initState])
  ⟨h.1.1, h.2.2.2.2.2.2.2.1⟩

namespace Main

/-! ## Anti-repeat in multi-tone mode -/

theorem audioEngine_finish (cfg : Config) (fs : String → Bool) (s : State)
    (hl : cfg.config_loop = false) (hact : s.isActive = true)
    (hrun : isRunning s.wav = true) :
    audioEngine cfg fs true s =
      { s with wav := none, file := none, hasPlayedOnce := true,
               trace := Event.stopTone :: s.trace } := by
  cases hw : s.wav with
  | none => rw [hw] at hrun; simp [isRunning] at hrun
  | some w =>
    rw [hw, isRunning_some] at hrun
    unfold audioEngine stopTone
    simp [hw, hrun, wavLoop, isRunning_some, hl, hact]

theorem audioEngine_idle (cfg : Config) (fs : String → Bool) (fin : Bool) (s : State)
    (hw : s.wav = none) : audioEngine cfg fs fin s = s := by
  unfold audioEngine
  simp [hw]

theorem sensorLogic_same_note (cfg : Config) (fs : String → Bool) (d : Int) (b : State)
    (hact : b.isActive = true) (hpo : b.hasPlayedOnce = true)
    (hd : d < cfg.config_trigger_mm)
    (ht : targetNote cfg d = Except.ok b.lastPlayedMultiNote) :
    sensorLogic cfg fs d b = Except.ok b := by
  unfold sensorLogic
  simp [hd, ht, hact, hpo]

theorem sensorSteps_same_note (cfg : Config) (fs : String → Bool) (dists : List Int)
    (b : State) (hact : b.isActive = true) (hpo : b.hasPlayedOnce = true)
    (hd : ∀ d ∈ dists, d < cfg.config_trigger_mm ∧
      targetNote cfg d = Except.ok b.lastPlayedMultiNote) :
    sensorSteps cfg fs dists b = Except.ok b := by
  induction dists with
  | nil => rfl
  | cons d rest ih =>
    obtain ⟨h1, h2⟩ := hd d (List.mem_cons_self _ _)
    simp only [sensorSteps, sensorLogic_same_note cfg fs d b hact hpo h1 h2]
    exact ih (fun x hx => hd x (List.mem_cons_of_mem _ hx))

theorem sensorLogic_new_note (cfg : Config) (fs : String → Bool) (d : Int) (b : State)
    (t : String) (hm : cfg.config_multitone = true) (hact : b.isActive = true)
    (hrun : isRunning b.wav = false) (hd : d < cfg.config_trigger_mm)
    (ht : targetNote cfg d = Except.ok t) (hne : t ≠ b.lastPlayedMultiNote) :
    ∃ s2, sensorLogic cfg fs d b = Except.ok s2 ∧ s2.isActive = true ∧
      s2.hasPlayedOnce = false ∧ s2.lastPlayedMultiNote = t ∧
      plays s2.trace = plays b.trace + 1 ∧
      (fs (filename t) = true →
        isRunning s2.wav = true ∧ s2.file = some (filename t) ∧
        starts s2.trace = starts b.trace + 1) ∧
      (fs (filename t) = false → s2.wav = b.wav ∧ starts s2.trace = starts b.trace) := by
  unfold sensorLogic
  simp only [hd, if_true, ht]
  refine ⟨_, rfl, ?_⟩
  unfold playTone
  have hne2 : ¬ t = b.lastPlayedMultiNote := hne
  cases hf : fs (filename t) <;>
    simp [hact, hrun, hf, hm, hne2, plays, starts, wavBegin, isRunning_some]

theorem sensorLogic_exit (cfg : Config) (fs : String → Bool) (d : Int) (b : State)
    (hact : b.isActive = true) (hlo : cfg.config_trigger_mm ≤ d)
    (hhi : d > wrapInt (cfg.config_trigger_mm + cfg.config_hysteresis_mm)) :
    ∃ s2, sensorLogic cfg fs d b = Except.ok s2 ∧ s2.isActive = false ∧
      s2.hasPlayedOnce = false ∧ s2.lastPlayedMultiNote = "" ∧ s2.wav = none ∧
      s2.file = none ∧ starts s2.trace = starts b.trace ∧
      plays s2.trace = plays b.trace := by
  unfold sensorLogic
  have h1 : ¬ d < cfg.config_trigger_mm := by omega
  simp only [h1, if_false, hact, hhi, and_self, if_true]
  refine ⟨_, rfl, ?_⟩
  unfold stopTone
  cases hr : isRunning b.wav <;> simp [hr, plays, starts]

theorem sensorLogic_entry (cfg : Config) (fs : String → Bool) (d : Int) (b : State)
    (t : String) (hact : b.isActive = false) (hrun : isRunning b.wav = false)
    (hd : d < cfg.config_trigger_mm) (ht : targetNote cfg d = Except.ok t) :
    ∃ s2, sensorLogic cfg fs d b = Except.ok s2 ∧ s2.isActive = true ∧
      s2.hasPlayedOnce = false ∧ plays s2.trace = plays b.trace + 1 ∧
      (fs (filename t) = true →
        isRunning s2.wav = true ∧ s2.file = some (filename t) ∧
        starts s2.trace = starts b.trace + 1) ∧
      (fs (filename t) = false → s2.wav = b.wav ∧ starts s2.trace = starts b.trace) := by
  unfold sensorLogic
  simp only [hd, if_true, ht]
  refine ⟨_, rfl, ?_⟩
  unfold playTone
  cases hm : cfg.config_multitone <;> cases hf : fs (filename t) <;>
    by_cases hl : t = b.lastPlayedMultiNote <;>
    first
    | (subst hl
       simp [hact, hrun, hf, plays, starts, wavBegin, isRunning_some])
    | simp [hact, hrun, hf, hl, plays, starts, wavBegin, isRunning_some]


/-- C16 (amended). Multi-tone mode, loop disabled. When the running decoder reports
completion while presence is Active, the audio step calls `stopTone`, sets `hasPlayedOnce`
and leaves `lastPlayedMultiNote` as it was (the note recorded last, whether or not it is the
note that sounded). From the state `s1` it leaves: any number of sensor steps whose
distance is below the trigger and maps to `lastPlayedMultiNote` change nothing at all and
start nothing, and so do an audio step and a sensor step in the hysteresis band; a step
whose target note differs from `lastPlayedMultiNote` resets `hasPlayedOnce` and calls
`playTone` for the new note; a step beyond the band leaves presence and clears the memory,
after which a step below the trigger re-enters, resets `hasPlayedOnce` and calls
`playTone`. -/
theorem multi_tone_anti_repeat (cfg : Config) (fs : String → Bool) (s : State)
    (hm : cfg.config_multitone = true) (hl : cfg.config_loop = false)
    (hact : s.isActive = true) (hrun : isRunning s.wav = true) :
    ∃ s1, audioEngine cfg fs true s = s1 ∧
      s1.hasPlayedOnce = true ∧ s1.lastPlayedMultiNote = s.lastPlayedMultiNote ∧
      s1.isActive = true ∧ s1.wav = none ∧ s1.file = none ∧
      s1.trace = Event.stopTone :: s.trace ∧
      (∀ (fs2 : String → Bool) (dists : List Int),
        (∀ d ∈ dists, d < cfg.config_trigger_mm ∧
          targetNote cfg d = Except.ok s.lastPlayedMultiNote) →
        sensorSteps cfg fs2 dists s1 = Except.ok s1) ∧
      (∀ (fs2 : String → Bool) (fin : Bool), audioEngine cfg fs2 fin s1 = s1) ∧
      (∀ (fs2 : String → Bool) (d : Int), cfg.config_trigger_mm ≤ d →
        d ≤ wrapInt (cfg.config_trigger_mm + cfg.config_hysteresis_mm) →
        sensorLogic cfg fs2 d s1 = Except.ok s1) ∧
      (∀ (fs2 : String → Bool) (d : Int) (t : String), d < cfg.config_trigger_mm →
        targetNote cfg d = Except.ok t → t ≠ s.lastPlayedMultiNote →
        ∃ s2, sensorLogic cfg fs2 d s1 = Except.ok s2 ∧ s2.isActive = true ∧
          s2.hasPlayedOnce = false ∧ s2.lastPlayedMultiNote = t ∧
          plays s2.trace = plays s1.trace + 1 ∧
          (fs2 (filename t) = true →
            isRunning s2.wav = true ∧ s2.file = some (filename t) ∧
            starts s2.trace = starts s1.trace + 1) ∧
          (fs2 (filename t) = false → s2.wav = s1.wav ∧ starts s2.trace = starts s1.trace)) ∧
      (∀ (fs2 : String → Bool) (d : Int), cfg.config_trigger_mm ≤ d →
        d > wrapInt (cfg.config_trigger_mm + cfg.config_hysteresis_mm) →
        ∃ s2, sensorLogic cfg fs2 d s1 = Except.ok s2 ∧ s2.isActive = false ∧
          s2.hasPlayedOnce = false ∧ s2.lastPlayedMultiNote = "" ∧
          starts s2.trace = starts s1.trace ∧ plays s2.trace = plays s1.trace ∧
          ∀ (fs3 : String → Bool) (d3 : Int) (t3 : String), d3 < cfg.config_trigger_mm →
            targetNote cfg d3 = Except.ok t3 →
            ∃ s3, sensorLogic cfg fs3 d3 s2 = Except.ok s3 ∧ s3.isActive = true ∧
              s3.hasPlayedOnce = false ∧ plays s3.trace = plays s2.trace + 1 ∧
              (fs3 (filename t3) = true →
                isRunning s3.wav = true ∧ s3.file = some (filename t3) ∧
                starts s3.trace = starts s2.trace + 1) ∧
              (fs3 (filename t3) = false →
                s3.wav = s2.wav ∧ starts s3.trace = starts s2.trace)) := by
  refine ⟨_, audioEngine_finish cfg fs s hl hact hrun, rfl, rfl, hact, rfl, rfl, rfl,
    ?_, ?_, ?_, ?_, ?_⟩
  · intro fs2 dists hd
    exact sensorSteps_same_note cfg fs2 dists _ hact rfl hd
  · intro fs2 fin
    exact audioEngine_idle cfg fs2 fin _ rfl
  · intro fs2 d h1 h2
    exact sensorLogic_band cfg fs2 d _ h1 h2
  · intro fs2 d t h1 h2 h3
    exact sensorLogic_new_note cfg fs2 d _ t hm hact rfl h1 h2 h3
  · intro fs2 d h1 h2
    obtain ⟨s2, e1, e2, e3, e4, e5, _, e7, e8⟩ := sensorLogic_exit cfg fs2 d
      { s with wav := none, file := none, hasPlayedOnce := true,
               trace := Event.stopTone :: s.trace } hact h1 h2
    refine ⟨s2, e1, e2, e3, e4, e7, e8, ?_⟩
    intro fs3 d3 t3 h4 h5
    exact sensorLogic_entry cfg fs3 d3 s2 t3 e2 (by rw [e5]; rfl) h4 h5

/-- Witness of C16: note C finishes while Active (trigger 800, spacing 50, loop off); three
more sensor steps in band 0 change nothing. -/
theorem multi_tone_anti_repeat_witness :
    ∃ s1, audioEngine multiToneConfig fsOnlyC true playingC = s1 ∧
      s1.hasPlayedOnce = true ∧ s1.lastPlayedMultiNote = "C" ∧
      sensorSteps multiToneConfig fsOnlyC [790, 780, 760] s1 = Except.ok s1 :=
  let ⟨s1, h1, h2, h3, _, _, _, _, h8, _⟩ := multi_tone_anti_repeat multiToneConfig fsOnlyC
    playingC (by decide) (by decide) (by decide) (by decide)
  ⟨s1, h1, h2, h3, h8 fsOnlyC [790, 780, 760] (by decide)⟩

/-- Counterexample to C16 as stated: multi-tone, loop off, trigger 800, spacing 50, only the
sample of C stored. A reading of 790 mm starts C; a reading of 740 mm records D while C
keeps sounding; C then finishes naturally (`stopTone`, `hasPlayedOnce` set) with D, not
the finished note C, as last played note; a further reading of 790 mm, which maps to the
finished note C while presence is still Active, begins C again. -/
theorem multi_tone_anti_repeat_counterexample :
    multiToneConfig.config_multitone = true ∧ multiToneConfig.config_loop = false ∧
      targetNote multiToneConfig 790 = Except.ok "C" ∧
      Except.map (fun s => (s.isActive, isRunning s.wav, s.file, s.lastPlayedMultiNote))
        (runLoop multiToneConfig
          [sensorTick fsOnlyC false 100 790, sensorTick fsOnlyC false 200 740] initState) =
        Except.ok (true, true, some "/C.wav", "D") ∧
      Except.map (fun s => (s.isActive, isRunning s.wav, s.hasPlayedOnce, starts s.trace))
        (runLoop multiToneConfig
          [sensorTick fsOnlyC false 100 790, sensorTick fsOnlyC false 200 740,
            audioTick fsOnlyC true 210] initState) =
        Except.ok (true, false, true, 1) ∧
      Except.map (fun s => (s.lastPlayedMultiNote, stops s.trace))
        (runLoop multiToneConfig
          [sensorTick fsOnlyC false 100 790, sensorTick fsOnlyC false 200 740,
            audioTick fsOnlyC true 210] initState) =
        Except.ok ("D", 1) ∧
      Except.map (fun s => (s.isActive, isRunning s.wav, s.file, starts s.trace))
        (runLoop multiToneConfig
          [sensorTick fsOnlyC false 100 790, sensorTick fsOnlyC false 200 740,
            audioTick fsOnlyC true 210, sensorTick fsOnlyC false 300 790] initState) =
        Except.ok (true, true, some "/C.wav", 2) := by
  decide


/-! ## Invariants of the reachable states -/

theorem sensorLogic_below_active (cfg : Config) (fs : String → Bool) (d : Int)
    (s s1 : State) (hd : d < cfg.config_trigger_mm)
    (hs : sensorLogic cfg fs d s = Except.ok s1) : s1.isActive = true := by
  unfold sensorLogic at hs
  simp only [hd, if_true] at hs
  cases ht : targetNote cfg d with
  | error e => rw [ht] at hs; cases hs
  | ok t =>
    rw [ht] at hs
    injection hs with hs
    subst hs
    have h1 : (if s.isActive = false then { s with isActive := true, hasPlayedOnce := false }
        else s).isActive = true := by
      cases ha : s.isActive <;> simp [ha]
    refine ite_cases (fun x : State => x.isActive = true) _ _ _ ?_ ?_
    · show (playTone cfg fs t _).isActive = true
      rw [(playTone_frame cfg fs t _).1]
      exact ite_cases (fun x : State => x.isActive = true) _ _ _ h1 h1
    · exact ite_cases (fun x : State => x.isActive = true) _ _ _ h1 h1

theorem audioEngine_idleSilent (cfg : Config) (fs : String → Bool) (fin : Bool) (s : State)
    (h : idleSilent s) : idleSilent (audioEngine cfg fs fin s) := by
  cases ha : s.isActive
  · rw [audioEngine_idle cfg fs fin s (h ha).1]
    exact h
  · intro hc
    rw [(audioEngine_frame cfg fs fin s).1, ha] at hc
    cases hc

theorem sensorLogic_idleSilent (cfg : Config) (fs : String → Bool) (d : Int)
    (s s1 : State) (h : idleSilent s) (hs : sensorLogic cfg fs d s = Except.ok s1) :
    idleSilent s1 := by
  by_cases hd : d < cfg.config_trigger_mm
  · intro hc
    rw [sensorLogic_below_active cfg fs d s s1 hd hs] at hc
    cases hc
  · unfold sensorLogic at hs
    simp only [hd, if_false] at hs
    split at hs
    · injection hs with hs
      subst hs
      intro _
      refine ⟨?_, ?_, rfl, rfl⟩
      · exact (stopTone_frame _).2.2.2.2.2.2.1
      · exact (stopTone_frame _).2.2.2.2.2.2.2.1
    · injection hs with hs
      subst hs
      exact h

theorem loop_idleSilent (cfg : Config) (inp : Input) (s s1 : State) (h : idleSilent s)
    (hs : loop cfg inp s = Except.ok s1) : idleSilent s1 := by
  have ha := audioEngine_idleSilent cfg inp.fsExists inp.finished s h
  unfold loop at hs
  simp only at hs
  split at hs
  · apply sensorLogic_idleSilent cfg inp.fsExists _ _ s1 _ hs
    obtain ⟨r1, r2, r3, r4, _, r6, _, _⟩ := readDistance_frame inp.timeoutOccurred
      inp.rawDist { audioEngine cfg inp.fsExists inp.finished s with
        lastSensorCheck := inp.now }
    unfold idleSilent
    rw [r1, r2, r3, r4, r6]
    exact ha
  · injection hs with hs
    subst hs
    exact ha

theorem runLoop_idleSilent (cfg : Config) (inps : List Input) :
    ∀ (s s1 : State), idleSilent s → runLoop cfg inps s = Except.ok s1 → idleSilent s1 := by
  induction inps with
  | nil =>
    intro s s1 h hs
    injection hs with hs
    subst hs
    exact h
  | cons inp rest ih =>
    intro s s1 h hs
    simp only [runLoop] at hs
    split at hs
    · rename_i s2 h2
      exact ih s2 s1 (loop_idleSilent cfg inp s s2 h h2) hs
    · cases hs

/-- C17. Idle is silent: in every state that iterations of `loop()` of `main.cpp` reach
from the state after `setup()`, under any fixed configuration and any inputs, if presence
is Idle then there is no decoder and no source, `hasPlayedOnce` is false and
`lastPlayedMultiNote` is empty; hence a running decoder implies that presence is Active. -/
theorem idle_is_silent (cfg : Config) (inps : List Input) (s1 : State)
    (h : runLoop cfg inps initState = Except.ok s1) :
    (s1.isActive = false →
      s1.wav = none ∧ s1.file = none ∧ isRunning s1.wav = false ∧
      s1.hasPlayedOnce = false ∧ s1.lastPlayedMultiNote = "") ∧
    (isRunning s1.wav = true → s1.isActive = true) := by
  have h0 : idleSilent initState := fun _ => ⟨rfl, rfl, rfl, rfl⟩
  have h1 := runLoop_idleSilent cfg inps initState s1 h0 h
  constructor
  · intro hi
    obtain ⟨a, b, c, d⟩ := h1 hi
    exact ⟨a, b, by rw [a]; rfl, c, d⟩
  · intro hr
    cases ha : s1.isActive
    · rw [(h1 ha).1] at hr
      cases hr
    · rfl

/-- Witness of C17: scenario A, which ends Idle after a playback. -/
theorem idle_is_silent_witness :
    ∃ s1, runLoop defaultConfig scenarioA initState = Except.ok s1 ∧
      s1.isActive = false ∧ s1.wav = none ∧ s1.file = none ∧ s1.hasPlayedOnce = false ∧
      s1.lastPlayedMultiNote = "" :=
  ⟨{ initState with
      lastSensorCheck := 500, lastValidDistance := 1200,
      trace := [Event.wavStop, Event.stopTone, Event.playTone "C",
        Event.wavBegin "/C.wav" (some 0), Event.playTone "C"] },
    by decide, rfl,
    ((idle_is_silent defaultConfig scenarioA _ (by decide)).1 rfl).1,
    ((idle_is_silent defaultConfig scenarioA _ (by decide)).1 rfl).2.1, rfl, rfl⟩


theorem readNOTES_mem (i : Int) (t : String) (h : readNOTES i = Except.ok t) :
    t ∈ NOTES := by
  unfold readNOTES NUM_NOTES at h
  split at h
  · rename_i hi
    injection h with h
    subst h
    have h7 : i.toNat < 7 := by omega
    generalize i.toNat = k at h7
    interval_cases k <;> decide
  · cases h

theorem targetNote_mem (cfg : Config) (d : Int) (t : String)
    (hm : cfg.config_multitone = true) (h : targetNote cfg d = Except.ok t) :
    t ∈ NOTES := by
  unfold targetNote at h
  simp only [hm, if_true] at h
  cases hi : noteIndex cfg d with
  | error e => rw [hi] at h; cases h
  | ok i =>
    rw [hi] at h
    exact readNOTES_mem i t h

theorem tracksPlaying_congr (s u : State) (hw : u.wav = s.wav) (hf : u.file = s.file)
    (hl : u.lastPlayedMultiNote = s.lastPlayedMultiNote) (h : tracksPlaying s) :
    tracksPlaying u := by
  unfold tracksPlaying at *
  rw [hw, hf, hl]
  exact h

theorem tracksPlaying_of_silent (s : State) (h : isRunning s.wav = false) :
    tracksPlaying s := by
  intro hr
  rw [h] at hr
  cases hr

theorem playTone_tracksPlaying (cfg : Config) (fs : String → Bool) (n : String) (s : State)
    (hm : cfg.config_multitone = true) (hf : fs (filename n) = true) (hn : n ∈ NOTES)
    (h : tracksPlaying s) : tracksPlaying (playTone cfg fs n s) := by
  unfold playTone
  simp only [hm, if_true, hf]
  split
  · exact tracksPlaying_congr s _ rfl rfl rfl h
  · intro _
    exact ⟨rfl, hn⟩

theorem stopTone_tracksPlaying (s : State) : tracksPlaying (stopTone s) := by
  apply tracksPlaying_of_silent
  rw [(stopTone_frame s).2.2.2.2.2.2.1]
  rfl

theorem audioEngine_tracksPlaying (cfg : Config) (fs : String → Bool) (fin : Bool)
    (s : State) (hm : cfg.config_multitone = true)
    (hfs : ∀ n ∈ NOTES, fs (filename n) = true) (h : tracksPlaying s) :
    tracksPlaying (audioEngine cfg fs fin s) := by
  cases hw : s.wav with
  | none =>
    rw [audioEngine_idle cfg fs fin s hw]
    exact h
  | some w =>
    cases hr : w.running
    · have he : audioEngine cfg fs fin s = s := by
        unfold audioEngine
        simp [hw, hr]
      rw [he]
      exact h
    · have hrun : isRunning s.wav = true := by rw [hw]; exact hr
      obtain ⟨h1, h2⟩ := h hrun
      unfold audioEngine
      simp only [hw, hr, if_true]
      split
      · rename_i hnot
        split
        · apply playTone_tracksPlaying cfg fs _ _ hm
          · simp only [restartNote, hm, if_true]
            exact hfs _ h2
          · simp only [restartNote, hm, if_true]
            exact h2
          · exact tracksPlaying_of_silent _ hnot
        · intro hc
          have hs := (stopTone_frame { s with wav := some (wavLoop fin w) }).2.2.2.2.2.2.1
          have : isRunning ({ stopTone { s with wav := some (wavLoop fin w) } with
              hasPlayedOnce := true }).wav = false := by
            show isRunning (stopTone { s with wav := some (wavLoop fin w) }).wav = false
            rw [hs]
            rfl
          rw [this] at hc
          cases hc
      · intro _
        exact ⟨h1, h2⟩

theorem sensorLogic_tracksPlaying (cfg : Config) (fs : String → Bool) (d : Int)
    (s s1 : State) (hm : cfg.config_multitone = true)
    (hfs : ∀ n ∈ NOTES, fs (filename n) = true) (h : tracksPlaying s)
    (hs : sensorLogic cfg fs d s = Except.ok s1) : tracksPlaying s1 := by
  unfold sensorLogic at hs
  by_cases hd : d < cfg.config_trigger_mm
  · simp only [hd, if_true] at hs
    cases ht : targetNote cfg d with
    | error e => rw [ht] at hs; cases hs
    | ok t =>
      rw [ht] at hs
      injection hs with hs
      subst hs
      have hmem := targetNote_mem cfg d t hm ht
      have h1 : tracksPlaying
          (if s.isActive = false then { s with isActive := true, hasPlayedOnce := false }
            else s) :=
        ite_cases _ _ _ _ (tracksPlaying_congr s _ rfl rfl rfl h) h
      have h2 : tracksPlaying
          (if cfg.config_multitone = true ∧ t ≠
              (if s.isActive = false then { s with isActive := true, hasPlayedOnce := false }
                else s).lastPlayedMultiNote then
            { (if s.isActive = false then { s with isActive := true, hasPlayedOnce := false }
                else s) with hasPlayedOnce := false }
          else (if s.isActive = false then { s with isActive := true, hasPlayedOnce := false }
            else s)) :=
        ite_cases _ _ _ _ (tracksPlaying_congr _ _ rfl rfl rfl h1) h1
      exact ite_cases _ _ _ _ (playTone_tracksPlaying cfg fs t _ hm (hfs t hmem) hmem h2) h2
  · simp only [hd, if_false] at hs
    split at hs
    · injection hs with hs
      subst hs
      apply tracksPlaying_of_silent
      show isRunning (stopTone { s with isActive := false }).wav = false
      rw [(stopTone_frame _).2.2.2.2.2.2.1]
      rfl
    · injection hs with hs
      subst hs
      exact h

theorem loop_tracksPlaying (cfg : Config) (inp : Input) (s s1 : State)
    (hm : cfg.config_multitone = true)
    (hfs : ∀ n ∈ NOTES, inp.fsExists (filename n) = true) (h : tracksPlaying s)
    (hs : loop cfg inp s = Except.ok s1) : tracksPlaying s1 := by
  have ha := audioEngine_tracksPlaying cfg inp.fsExists inp.finished s hm hfs h
  unfold loop at hs
  simp only at hs
  split at hs
  · apply sensorLogic_tracksPlaying cfg inp.fsExists _ _ s1 hm hfs _ hs
    obtain ⟨_, _, r3, r4, _, r6, _, _⟩ := readDistance_frame inp.timeoutOccurred
      inp.rawDist { audioEngine cfg inp.fsExists inp.finished s with
        lastSensorCheck := inp.now }
    exact tracksPlaying_congr _ _ r3 r4 r6 (tracksPlaying_congr _ _ rfl rfl rfl ha)
  · injection hs with hs
    subst hs
    exact ha

theorem runLoop_tracksPlaying (cfg : Config) (inps : List Input)
    (hm : cfg.config_multitone = true) :
    ∀ (s s1 : State), allSamplesStored inps → tracksPlaying s →
      runLoop cfg inps s = Except.ok s1 → tracksPlaying s1 := by
  induction inps with
  | nil =>
    intro s s1 _ h hs
    injection hs with hs
    subst hs
    exact h
  | cons inp rest ih =>
    intro s s1 hfs h hs
    simp only [runLoop] at hs
    split at hs
    · rename_i s2 h2
      exact ih s2 s1 (fun x hx => hfs x (List.mem_cons_of_mem _ hx))
        (loop_tracksPlaying cfg inp s s2 hm (hfs inp (List.mem_cons_self _ _)) h h2) hs
    · cases hs

/-- C18. Multi-tone mode, fixed configuration, the sample of every note of `NOTES` stored
throughout: in every state that iterations of `loop()` reach from the state after
`setup()` and in which a decoder is running, the source was opened on the file of
`lastPlayedMultiNote`, which is a note of `NOTES`: the note that sounds is the note the
loop restart and the anti-restart guard refer to. -/
theorem playing_note_tracked (cfg : Config) (inps : List Input) (s1 : State)
    (hm : cfg.config_multitone = true) (hfs : allSamplesStored inps)
    (h : runLoop cfg inps initState = Except.ok s1) (hr : isRunning s1.wav = true) :
    s1.file = some (filename s1.lastPlayedMultiNote) ∧ s1.lastPlayedMultiNote ∈ NOTES :=
  runLoop_tracksPlaying cfg inps hm initState s1 hfs
    (tracksPlaying_of_silent initState rfl) h hr

end Main

/-- Witness of C18: after `twoNoteRun` note D is playing and recorded. -/
theorem Main.playing_note_tracked_witness :
    Main.playingD.file = some (Main.filename Main.playingD.lastPlayedMultiNote) ∧
      Main.playingD.lastPlayedMultiNote ∈ Main.NOTES :=
  Main.playing_note_tracked Main.multiToneConfig Main.twoNoteRun Main.playingD (by decide)
    (by
      intro inp hi n _
      simp only [Main.twoNoteRun, List.mem_cons, List.mem_singleton, List.not_mem_nil,
        or_false] at hi
      rcases hi with rfl | rfl <;> rfl)
    (by decide) (by decide)

/-! ## Equivalence of the two sketches in single-tone mode without loop -/

theorem Main.audioEngine_off (cfg : Main.Config) (fs : String → Bool) (fin : Bool)
    (m : Main.State) (hl : cfg.config_loop = false) :
    Main.audioEngine cfg fs fin m =
      if isRunning m.wav = true then
        (if fin = true then
          { Main.stopTone { m with wav := some { running := false } } with
            hasPlayedOnce := true }
        else { m with wav := some { running := true } })
      else m := by
  unfold Main.audioEngine
  cases hw : m.wav with
  | none => simp [isRunning]
  | some w =>
    cases hr : w.running <;> cases fin <;> simp [isRunning_some, hr, wavLoop, hl]

theorem Simple.audioEngine_eq (fin : Bool) (t : Simple.State) :
    Simple.audioEngine fin t =
      if isRunning t.wav = true then
        (if fin = true then Simple.stopTone { t with wav := some { running := false } }
        else { t with wav := some { running := true } })
      else t := by
  unfold Simple.audioEngine
  cases hw : t.wav with
  | none => simp [isRunning]
  | some w =>
    cases hr : w.running <;> cases fin <;> simp [isRunning_some, hr, wavLoop]

theorem audioEngine_agree (cfg : Main.Config) (fs : String → Bool) (fin : Bool)
    (m : Main.State) (t : Simple.State) (hl : cfg.config_loop = false)
    (h : variantsAgree m t) :
    variantsAgree (Main.audioEngine cfg fs fin m) (Simple.audioEngine fin t) := by
  obtain ⟨h1, h2, h3, h4, h5, h6, h7⟩ := h
  rw [Main.audioEngine_off cfg fs fin m hl, Simple.audioEngine_eq fin t, ← h2]
  unfold variantsAgree
  cases hr : isRunning m.wav
  · simp only [Bool.false_eq_true, if_false]
    exact ⟨h1, by rw [← h2, hr], h3, h4, h5, h6, h7⟩
  · cases fin
    · simp only [Bool.false_eq_true, if_false, if_true, isRunning_some]
      exact ⟨h1, trivial, h3, h4, h5, h6, fun _ hc => by cases hc⟩
    · simp only [if_true]
      unfold Main.stopTone Simple.stopTone
      cases ha : m.isActive <;>
        simp [isRunning_some, isRunning_none, starts, ← h1, ha, h3, h4, h5, h6]


theorem readDistance_agree (tmo : Bool) (raw : Nat) (m : Main.State) (u : Simple.State)
    (h : variantsAgree m u) :
    (Main.readDistance tmo raw m).1 = (Simple.readDistance tmo raw u).1 ∧
      variantsAgree (Main.readDistance tmo raw m).2 (Simple.readDistance tmo raw u).2 := by
  obtain ⟨h1, h2, h3, h4, h5, h6, h7⟩ := h
  rw [Main.readDistance_eq_spec, Simple.readDistance_eq_spec_simple, h4, h5]
  exact ⟨rfl, h1, h2, h3, rfl, rfl, h6, h7⟩

theorem variantsAgree_debugOutput (d : Int) (m : Main.State) (u : Simple.State)
    (h : variantsAgree m u) : variantsAgree m (Simple.debugOutput d u) := by
  obtain ⟨g1, g2, _, _, g5, g6, g7, g8⟩ := Simple.debugOutput_frame d u
  unfold variantsAgree at *
  rw [g1, g2, g5, g6, g7, g8]
  exact h

theorem sensorLogic_agree (cfg : Main.Config) (cs : Simple.Config) (fs : String → Bool)
    (d : Int) (m : Main.State) (u : Simple.State)
    (hm : cfg.config_multitone = false)
    (htrig : cfg.config_trigger_mm = cs.config_trigger_mm)
    (hhyst : cfg.config_hysteresis_mm = cs.config_hysteresis_mm)
    (hh : 0 ≤ cs.config_hysteresis_mm) (hint : isInt cs.config_trigger_mm)
    (hsum : cs.config_trigger_mm + cs.config_hysteresis_mm ≤ INT_MAX)
    (hf1 : fs (Main.filename cfg.active_note) = true) (hf2 : fs "/piano.wav" = true)
    (h : variantsAgree m u) :
    ∃ m1, Main.sensorLogic cfg fs d m = Except.ok m1 ∧
      variantsAgree m1 (Simple.sensorLogic cs fs d u) := by
  obtain ⟨h1, h2, h3, h4, h5, h6, h7⟩ := h
  have hw : wrapInt (cs.config_trigger_mm + cs.config_hysteresis_mm) =
      cs.config_trigger_mm + cs.config_hysteresis_mm := by
    apply wrapInt_eq_self
    unfold isInt at *
    constructor <;> omega
  unfold Main.sensorLogic Main.targetNote Simple.sensorLogic
  rw [htrig, hhyst, hw]
  simp only [hm, Bool.false_eq_true, if_false, false_and]
  unfold variantsAgree
  by_cases hd : d < cs.config_trigger_mm
  · have hnot : ¬ d > cs.config_trigger_mm + cs.config_hysteresis_mm := by omega
    simp only [hd, if_true, hnot, and_false, if_false, and_true]
    refine ⟨_, rfl, ?_⟩
    unfold Main.playTone Simple.playTone
    cases ha : m.isActive <;> cases hr : isRunning m.wav <;> cases hp : m.hasPlayedOnce <;>
      simp_all [starts, wavBegin, isRunning_some]
  · simp only [hd, if_false, and_false]
    by_cases hx : d > cs.config_trigger_mm + cs.config_hysteresis_mm
    · unfold Main.stopTone Simple.stopTone
      cases ha : m.isActive <;> cases hr : isRunning m.wav <;>
        simp_all [starts, isRunning_none]
    · simp only [hx, and_false, if_false]
      exact ⟨_, rfl, h1, h2, h3, h4, h5, h6, h7⟩


theorem loop_agree (cfg : Main.Config) (cs : Simple.Config) (inp : Input)
    (m : Main.State) (u : Simple.State)
    (hm : cfg.config_multitone = false) (hl : cfg.config_loop = false)
    (htrig : cfg.config_trigger_mm = cs.config_trigger_mm)
    (hhyst : cfg.config_hysteresis_mm = cs.config_hysteresis_mm)
    (hh : 0 ≤ cs.config_hysteresis_mm) (hint : isInt cs.config_trigger_mm)
    (hsum : cs.config_trigger_mm + cs.config_hysteresis_mm ≤ INT_MAX)
    (hf1 : inp.fsExists (Main.filename cfg.active_note) = true)
    (hf2 : inp.fsExists "/piano.wav" = true) (h : variantsAgree m u) :
    ∃ m1, Main.loop cfg inp m = Except.ok m1 ∧ variantsAgree m1 (Simple.loop cs inp u) := by
  have ha := audioEngine_agree cfg inp.fsExists inp.finished m u hl h
  unfold Main.loop Simple.loop
  simp only
  rw [← ha.2.2.1]
  by_cases hdue : sensorDue inp.now (Main.audioEngine cfg inp.fsExists inp.finished m).lastSensorCheck
  · simp only [hdue, if_true]
    have hb : variantsAgree
        { Main.audioEngine cfg inp.fsExists inp.finished m with lastSensorCheck := inp.now }
        { Simple.audioEngine inp.finished u with lastSensorCheck := inp.now } := by
      obtain ⟨a1, a2, _, a4, a5, a6, a7⟩ := ha
      exact ⟨a1, a2, rfl, a4, a5, a6, a7⟩
    obtain ⟨r1, r2⟩ := readDistance_agree inp.timeoutOccurred inp.rawDist _ _ hb
    rw [r1]
    exact sensorLogic_agree cfg cs inp.fsExists _ _ _ hm htrig hhyst hh hint hsum hf1 hf2
      (variantsAgree_debugOutput _ _ _ r2)
  · simp only [hdue, if_false]
    exact ⟨_, rfl, ha⟩

theorem runLoop_agree (cfg : Main.Config) (cs : Simple.Config) (inps : List Input)
    (hm : cfg.config_multitone = false) (hl : cfg.config_loop = false)
    (htrig : cfg.config_trigger_mm = cs.config_trigger_mm)
    (hhyst : cfg.config_hysteresis_mm = cs.config_hysteresis_mm)
    (hh : 0 ≤ cs.config_hysteresis_mm) (hint : isInt cs.config_trigger_mm)
    (hsum : cs.config_trigger_mm + cs.config_hysteresis_mm ≤ INT_MAX) :
    ∀ (m : Main.State) (u : Simple.State),
      (∀ inp ∈ inps, inp.fsExists (Main.filename cfg.active_note) = true ∧
        inp.fsExists "/piano.wav" = true) →
      variantsAgree m u →
      ∃ m1, Main.runLoop cfg inps m = Except.ok m1 ∧
        variantsAgree m1 (Simple.runLoop cs inps u) := by
  induction inps with
  | nil => intro m u _ h; exact ⟨m, rfl, h⟩
  | cons inp rest ih =>
    intro m u hf h
    obtain ⟨f1, f2⟩ := hf inp (List.mem_cons_self _ _)
    obtain ⟨m1, e1, a1⟩ := loop_agree cfg cs inp m u hm hl htrig hhyst hh hint hsum f1 f2 h
    obtain ⟨m2, e2, a2⟩ := ih m1 _ (fun x hx => hf x (List.mem_cons_of_mem _ hx)) a1
    refine ⟨m2, ?_, ?_⟩
    · simp only [Main.runLoop, e1]
      exact e2
    · simp only [Simple.runLoop]
      exact a2

/-- C19. Variant equivalence. With multi-tone off and loop off in `main.cpp`, the same
trigger and hysteresis in both sketches, hysteresis non-negative and the `int` sum
`trigger + hysteresis` not overflowing (as for the values 800 and 100 that
`main_simple.cpp` is built with), and the sample files of both present in every iteration:
fed the same iterations from their states after `setup()`, after every number `n` of
iterations `main.cpp` has completed its run and both sketches show the same presence, the
same running flag of the decoder and the same number of playbacks begun, so playbacks are
begun in exactly the same iterations. -/
theorem variants_equivalent (cfg : Main.Config) (cs : Simple.Config) (inps : List Input)
    (hm : cfg.config_multitone = false) (hl : cfg.config_loop = false)
    (htrig : cfg.config_trigger_mm = cs.config_trigger_mm)
    (hhyst : cfg.config_hysteresis_mm = cs.config_hysteresis_mm)
    (hh : 0 ≤ cs.config_hysteresis_mm) (hint : isInt cs.config_trigger_mm)
    (hsum : cs.config_trigger_mm + cs.config_hysteresis_mm ≤ INT_MAX)
    (hf : ∀ inp ∈ inps, inp.fsExists (Main.filename cfg.active_note) = true ∧
      inp.fsExists "/piano.wav" = true) :
    ∀ n : Nat, ∃ m1, Main.runLoop cfg (inps.take n) Main.initState = Except.ok m1 ∧
      m1.isActive = (Simple.runLoop cs (inps.take n) Simple.initState).isActive ∧
      isRunning m1.wav = isRunning (Simple.runLoop cs (inps.take n) Simple.initState).wav ∧
      starts m1.trace = starts (Simple.runLoop cs (inps.take n) Simple.initState).trace := by
  intro n
  have h0 : variantsAgree Main.initState Simple.initState :=
    ⟨rfl, rfl, rfl, rfl, rfl, rfl, fun hc => by cases hc⟩
  obtain ⟨m1, e1, a1, a2, _, _, _, a6, _⟩ := runLoop_agree cfg cs (inps.take n) hm hl htrig
    hhyst hh hint hsum Main.initState Simple.initState
    (fun x hx => hf x (List.mem_of_mem_take hx)) h0
  exact ⟨m1, e1, a1, a2, a6⟩


/-- Witness of C19: both sketches with trigger 800 and hysteresis 100 over
`comparisonRun`, compared after all five iterations. -/
theorem variants_equivalent_witness :
    ∃ m1, Main.runLoop Main.defaultConfig (Main.comparisonRun.take 5) Main.initState =
        Except.ok m1 ∧
      m1.isActive = (Simple.runLoop Simple.defaultConfig (Main.comparisonRun.take 5)
        Simple.initState).isActive ∧
      isRunning m1.wav = isRunning (Simple.runLoop Simple.defaultConfig
        (Main.comparisonRun.take 5) Simple.initState).wav ∧
      starts m1.trace = starts (Simple.runLoop Simple.defaultConfig
        (Main.comparisonRun.take 5) Simple.initState).trace :=
  variants_equivalent Main.defaultConfig Simple.defaultConfig Main.comparisonRun
    (by decide) (by decide) (by decide) (by decide) (by decide) (by decide) (by decide)
    (by
      intro inp hi
      simp only [Main.comparisonRun, List.mem_cons, List.mem_singleton, List.not_mem_nil,
        or_false] at hi
      rcases hi with rfl | rfl | rfl | rfl | rfl <;> exact ⟨rfl, rfl⟩) 5

end PianoStairs
